import Mathlib

/-!
A shallow embedding of the customer-onboarding decision engine of this
repository (the modules under app/agent, app/integrations and app/llm),
together with theorems checking the engine's natural-language
specification against the code.

Conventions of the embedding:
* Python dicts keyed by strings whose values are lists of messages (the
  `violations` and `warnings` maps of the agent state) are ordered
  association lists `List (String × List String)`;
  `d.setdefault(k, []).append(v)` is `dictAppend`, and reading a key with
  an implicit default of `[]` is `lookupD`.
* A Python value that may be absent (`dict.get` returning `None`) is an
  `Option`; Python string truthiness (`if s:`) is `truthyStr`, numeric
  truthiness is `truthyNum`.
* Monetary amounts (floats that are exact multiples of 0.01 in the mock
  data) are rationals; calendar dates are proleptic-Gregorian day
  numbers, on which `datetime.date` comparison and subtraction agree.
* Collaborator calls that only log or send outward messages (`log_event`,
  `notifier.*`) do not change the run state and are omitted; the audit
  trail kept on the state (`record_action`, `record_notification`) is
  modelled in full.  Fields of records that no modelled code path ever
  reads (timestamps, uuids, addresses, audit sub-documents) are omitted;
  each definition's doc comment names its source.
-/

/-- Python string truthiness for an optional string field: `None` and the
empty string are falsy. -/
def truthyStr (v : Option String) : Bool :=
  match v with
  | none => false
  | some s => !s.isEmpty

/-- Python numeric truthiness for an optional number: `None` and `0` are
falsy.  Monetary amounts are integer cents throughout the embedding —
every float amount in the mock data is an exact multiple of 0.01, so
cent arithmetic coincides with the source's float arithmetic. -/
def truthyNum (v : Option ℤ) : Bool :=
  match v with
  | none => false
  | some q => decide (q ≠ 0)

/-- `String.toUpper` via the character list (the library function is not
kernel-reducible). -/
def strToUpper (s : String) : String :=
  String.mk (s.toList.map Char.toUpper)

/-- `String.toLower` via the character list. -/
def strToLower (s : String) : String :=
  String.mk (s.toList.map Char.toLower)

/-- Split a character list at a separator character (the behaviour of
`String.splitOn` with a one-character separator). -/
def splitChar (c : Char) : List Char → List (List Char)
  | [] => [[]]
  | x :: xs =>
      let r := splitChar c xs
      if x = c then [] :: r
      else match r with
        | h :: t => (x :: h) :: t
        | [] => [[x]]

/-- Parse a non-empty all-digit character list as a natural number
(the behaviour of `String.toNat?`). -/
def digitsToNat? (cs : List Char) : Option ℕ :=
  if cs.isEmpty then none
  else cs.foldl (fun acc ch =>
    match acc with
    | none => none
    | some n => if ch.isDigit then some (n * 10 + (ch.toNat - 48)) else none) (some 0)

/-- Python `needle in haystack` on strings, checked over character
lists; `leadsWith n l` is "n is an initial segment of l". -/
def leadsWith : List Char → List Char → Bool
  | [], _ => true
  | _ :: _, [] => false
  | a :: as, b :: bs => a = b && leadsWith as bs

/-- Does the needle occur inside the list? -/
def containsSubList (needle : List Char) : List Char → Bool
  | [] => needle.isEmpty
  | x :: xs => leadsWith needle (x :: xs) || containsSubList needle xs

/-- Reading `d[k]` from a string-keyed dict of message lists, with the
implicit default `[]` used throughout the agent code
(`d.get(k, [])` / iterating `d.values()` of keys never inserted). -/
def lookupD (m : List (String × List String)) (key : String) : List String :=
  match m with
  | [] => []
  | (k, v) :: rest => if k = key then v else lookupD rest key

/-- `d.setdefault(key, []).append(msg)` on a Python dict of lists:
append to the list of an existing key (insertion order kept), or add the
key at the end with a one-element list. -/
def dictAppend (m : List (String × List String)) (key : String) (msg : String) :
    List (String × List String) :=
  match m with
  | [] => [(key, [msg])]
  | (k, v) :: rest =>
      if k = key then (k, v ++ [msg]) :: rest
      else (k, v) :: dictAppend rest key msg

/-- `sum(len(msgs) for msgs in d.values())` — the violation/warning count
used by `validate_data`, `make_decision` and `_rule_based_analyze`. -/
def countMsgs (m : List (String × List String)) : ℕ :=
  (m.map (fun p => p.2.length)).sum

/-- One entry of the `api_errors` list, `APIErrorInfo` built by
`state_utils.add_api_error`.  The metadata fields that no modelled code
path reads (timestamp, uuid, correlation id, resolution guidance,
entity-context snapshot) are omitted; `operation` is the value stored in
`enriched_details["operation"]`, which the mirrored violation message
uses. -/
structure APIErrorInfo where
  system : String
  error_type : String
  error_code : String
  message : String
  http_status : ℕ
  operation : String
deriving Repr, DecidableEq

/-- A Salesforce Account record (`MOCK_ACCOUNTS` value), restricted to the
keys read by the agent: identification and flag fields used by
`check_account_invariants` and `fetch_salesforce_data`.  `status` mirrors
`account.get("status")` (never present in the mock records);
`simulate_error` mirrors the `_simulate_error` key of the
error-simulation entries. -/
structure Account where
  Id : Option String := none
  Name : Option String := none
  BillingCountry : Option String := none
  Industry : Option String := none
  OwnerId : Option String := none
  IsDeleted : Option Bool := none
  status : Option String := none
  error_type : Option String := none
  error_code : Option String := none
  message : Option String := none
  http_status : Option ℕ := none
  simulate_error : Option String := none
deriving Repr, DecidableEq

/-- A Salesforce User record (`MOCK_USERS` value), restricted to the keys
read by `check_user_invariants`, `fetch_salesforce_data` and
`provision_account`. -/
structure User where
  Id : Option String := none
  Username : Option String := none
  Email : Option String := none
  FirstName : Option String := none
  LastName : Option String := none
  Title : Option String := none
  Department : Option String := none
  IsActive : Option Bool := none
  ProfileId : Option String := none
  TimeZoneSidKey : Option String := none
  ManagerId : Option String := none
  IsPortalEnabled : Option Bool := none
  AccountId : Option String := none
  status : Option String := none
  error_type : Option String := none
  error_code : Option String := none
  message : Option String := none
  http_status : Option ℕ := none
deriving Repr, DecidableEq

/-- A Salesforce Opportunity record (`MOCK_OPPORTUNITIES` value),
restricted to the keys read by `check_opportunity_invariants` and the
account-based lookup. -/
structure Opportunity where
  Id : Option String := none
  AccountId : Option String := none
  StageName : Option String := none
  Amount : Option ℤ := none
  CloseDate : Option String := none
  OwnerId : Option String := none
  ContractId : Option String := none
deriving Repr, DecidableEq

/-- A Salesforce Contract record (`MOCK_CONTRACTS` value).  The agent
stores it on the state but never validates it (`check_contract_invariants`
reads the CLM record instead), so only the lookup key and status are
kept. -/
structure SFContract where
  Id : Option String := none
  AccountId : Option String := none
  Status : Option String := none
deriving Repr, DecidableEq

/-- A CLM signatory entry, restricted to the keys read by
`_transform_contract_for_agent`, `check_contract_invariants` and
`provision_account`. -/
structure Signatory where
  name : Option String := none
  email : Option String := none
  company : Option String := none
  signed : Option Bool := none
deriving Repr, DecidableEq

/-- A CLM contract record (`MOCK_CLM_DB` value), restricted to the keys
read by `_transform_contract_for_agent`; `sla_tier` is
`key_terms["sla_tier"]`, and `simulate_error` mirrors the
`_simulate_error` key of the error-simulation entries. -/
structure CLMRecord where
  contract_id : Option String := none
  name : Option String := none
  status : Option String := none
  effective_date : Option String := none
  expiry_date : Option String := none
  signatories : List Signatory := []
  sla_tier : Option String := none
  simulate_error : Option String := none
deriving Repr, DecidableEq

/-- The agent-facing CLM contract dict built by
`clm._transform_contract_for_agent`. -/
structure CLMView where
  contract_id : Option String
  name : Option String
  status : Option String
  effective_date : Option String
  expiry_date : Option String
  signatories : List Signatory
  pending_signatories : List Signatory
  all_signed : Bool
  sla_tier : Option String
deriving Repr, DecidableEq

/-- Result of the high-level `clm.get_contract`: either the transformed
contract dict, the `NOT_FOUND` status dict, or one of the error status
dicts (`AUTH_ERROR`, `PERMISSION_ERROR`, ...) carrying `error`,
`error_code` and `http_status`. -/
inductive CLMFetchResult where
  | contract (v : CLMView)
  | notFound (error : String)
  | errorResp (status : String) (error : String) (error_code : String) (http_status : ℕ)
deriving Repr, DecidableEq

/-- A NetSuite invoice record (`MOCK_INVOICES_DB` value), restricted to
the keys read by `_transform_invoice_for_agent`; `statusId` is
`status["id"]`. -/
structure NSInvoiceRecord where
  id : Option String := none
  tranId : Option String := none
  externalId : Option String := none
  dueDate : Option String := none
  statusId : Option String := none
  total : Option ℤ := none
  amountRemaining : Option ℤ := none
  email : Option String := none
deriving Repr, DecidableEq

/-- The agent-facing invoice dict returned by `netsuite.get_invoice`:
either the output of `_transform_invoice_for_agent` or one of the status
dicts (`NOT_FOUND`, `AUTH_ERROR`, ...), which carry `error` and
optionally `error_code` and leave the other keys absent.  Restricted to
the keys read by `check_invoice_invariants`, `fetch_invoice_data` and
`send_notifications`. -/
structure InvoiceView where
  invoice_id : Option String := none
  status : String
  days_overdue : Option ℤ := none
  total : Option ℤ := none
  amount_remaining : Option ℤ := none
  due_date : Option String := none
  customer_email : Option String := none
  error : Option String := none
  error_code : Option String := none
deriving Repr, DecidableEq

/-- The result dict of `provisioning.provision_account`, restricted to the
keys read by `provision_account` in nodes.py.  The random uuid suffix of
`tenant_id` and the onboarding-task checklist are irrelevant to every
claim, so the collaborator is passed to the node as a function
parameter. -/
structure ProvisioningResult where
  tenant_id : String
  account_id : String
  status : String
  tier : String
deriving Repr, DecidableEq

/-- One entry of `actions_taken`, written by `record_action`; the source
stores the dict key `"type"`, modelled as `action_type`.  The
`onboarding_tasks` summary sub-document is omitted (read by no modelled
path). -/
structure ActionRecord where
  action_type : String
  tenant_id : String
  tier : String
  status : String
deriving Repr, DecidableEq

/-- One entry of `notifications_sent`, written by `record_notification`
(the duplicated `type`/`channel` key is kept once). -/
structure NotificationRecord where
  channel : String
  recipient : String
  message : String
deriving Repr, DecidableEq

/-- The output dict of `risk_analyzer._rule_based_analyze`, restricted to
the fields the claims and the downstream nodes read (`risks`,
`recommended_actions` and the resolution-time estimate are read by no
claim). -/
structure RiskAnalysis where
  summary : String
  risk_level : String
  can_proceed_with_warnings : Bool
deriving Repr, DecidableEq

/-- The agent run state, `AgentState` of app/agent/state.py restricted to
the keys the modelled code paths read or write (`decisions` and
`overrides` are written by no modelled path). -/
structure AgentState where
  account_id : String
  correlation_id : String := ""
  event_type : String := "manual"
  account : Option Account := none
  user : Option User := none
  opportunity : Option Opportunity := none
  contract : Option SFContract := none
  clm : Option CLMView := none
  invoice : Option InvoiceView := none
  provisioning : Option ProvisioningResult := none
  api_errors : List APIErrorInfo := []
  violations : List (String × List String) := []
  warnings : List (String × List String) := []
  stage : String := "initialized"
  decision : String := "PENDING"
  risk_analysis : Option RiskAnalysis := none
  actions_taken : List ActionRecord := []
  notifications_sent : List NotificationRecord := []
  human_summary : String := ""
deriving Repr, DecidableEq

/-- `state_utils.init_state`: a clean state for a new run (the
uuid-default of `correlation_id` is supplied by the caller). -/
def init_state (account_id correlation_id event_type : String) : AgentState :=
  { account_id := account_id
    correlation_id := correlation_id
    event_type := event_type }

/-- `state_utils.add_violation`: record a blocking invariant violation
(the `None` guard on the map is the identity here because the map field
is total). -/
def add_violation (s : AgentState) (domain message : String) : AgentState :=
  { s with violations := dictAppend s.violations domain message }

/-- `state_utils.add_warning`: record a non-blocking warning. -/
def add_warning (s : AgentState) (domain message : String) : AgentState :=
  { s with warnings := dictAppend s.warnings domain message }

/-- The mirrored violation message appended by `add_api_error`:
`f"{system.upper()} API Error [{error_code}] during {op}: {message}"`. -/
def apiErrorMirrorMsg (system error_code op message : String) : String :=
  strToUpper system ++ " API Error [" ++ error_code ++ "] during " ++ op ++ ": " ++ message

/-- `state_utils.add_api_error`: append a full `APIErrorInfo` to
`api_errors` and mirror it as a violation under the `"api_error"` domain.
`operation` is the caller's `details["operation"]`; the stored operation
is `enriched_details.get("operation") or "unknown"`. -/
def add_api_error (s : AgentState) (system error_type error_code message : String)
    (http_status : ℕ) (operation : Option String) : AgentState :=
  let op := match operation with
    | some o => if o.isEmpty then "unknown" else o
    | none => "unknown"
  let error_info : APIErrorInfo :=
    { system := system, error_type := error_type, error_code := error_code,
      message := message, http_status := http_status, operation := op }
  let s := { s with api_errors := s.api_errors ++ [error_info] }
  add_violation s "api_error" (apiErrorMirrorMsg system error_code op message)

/-- The violation message `make_decision` appends for one recorded API
error: `f"API Error ({error_type}): {message} [Code: {error_code}]"`. -/
def apiErrorDecisionMsg (e : APIErrorInfo) : String :=
  "API Error (" ++ e.error_type ++ "): " ++ e.message ++ " [Code: " ++ e.error_code ++ "]"

/-- `nodes.make_decision`: the decision policy.  API errors force BLOCK
and are additionally appended to the violations map under each error's
system name; otherwise violations force BLOCK, then warnings force
ESCALATE, else PROCEED. -/
def make_decision (s : AgentState) : AgentState :=
  let violation_count := countMsgs s.violations
  let warning_count := countMsgs s.warnings
  let api_error_count := s.api_errors.length
  if api_error_count > 0 then
    let violations := s.api_errors.foldl
      (fun m e => dictAppend m e.system (apiErrorDecisionMsg e)) s.violations
    { s with decision := "BLOCK", stage := "blocked", violations := violations }
  else if violation_count > 0 then
    { s with decision := "BLOCK", stage := "blocked" }
  else if warning_count > 0 then
    { s with decision := "ESCALATE", stage := "escalation_required" }
  else
    { s with decision := "PROCEED", stage := "ready_to_provision" }

/-- `invariants/account.py check_account_invariants`. -/
def check_account_invariants (s : AgentState) : AgentState :=
  match s.account with
  | none => add_violation s "account" "Account data missing"
  | some account =>
    let s := if !truthyStr account.Id then
        add_violation s "account" "Account.Id is required" else s
    let s := if !truthyStr account.Name then
        add_violation s "account" "Account.Name is required" else s
    let s := if account.IsDeleted = some true then
        add_violation s "account" "Account is marked as deleted" else s
    let s := if !truthyStr account.BillingCountry then
        add_warning s "account" "BillingCountry missing; tax/provisioning may fail" else s
    let s := if !truthyStr account.Industry then
        add_warning s "account" "Industry not set; segmentation limited" else s
    if !truthyStr account.OwnerId then
      add_warning s "account" "Account has no assigned owner" else s

/-- `invariants/user.py check_user_invariants`. -/
def check_user_invariants (s : AgentState) : AgentState :=
  match s.user with
  | none => add_violation s "user" "User data missing"
  | some user =>
    let s := if !truthyStr user.Id then
        add_violation s "user" "User.Id is required" else s
    let s := if !truthyStr user.Username then
        add_violation s "user" "User.Username is required" else s
    let s := if !truthyStr user.Email then
        add_violation s "user" "User.Email is required" else s
    let s := if user.IsActive = some false then
        add_violation s "user" "User is inactive" else s
    let s := if !truthyStr user.ProfileId then
        add_violation s "user" "User.ProfileId is required" else s
    let s := if user.IsPortalEnabled = some true && !truthyStr user.AccountId then
        add_violation s "user" "Portal user must be associated with an Account" else s
    let s := if !truthyStr user.FirstName || !truthyStr user.LastName then
        add_warning s "user" "User full name incomplete" else s
    let s := if !truthyStr user.Title then
        add_warning s "user" "User.Title missing" else s
    let s := if !truthyStr user.Department then
        add_warning s "user" "User.Department missing" else s
    let s := if !truthyStr user.TimeZoneSidKey then
        add_warning s "user" "User.TimeZoneSidKey missing" else s
    if !truthyStr user.ManagerId then
      add_warning s "user" "User has no ManagerId (escalation risk)" else s

/-- `invariants/opportunity.py WON_STAGES`. -/
def WON_STAGES : List String := ["Closed Won"]

/-- `invariants/opportunity.py OPEN_STAGES`. -/
def OPEN_STAGES : List String := ["Prospecting", "Qualification", "Needs Analysis",
  "Value Proposition", "Negotiation", "Proposal"]

/-- Python `stage in SET` for an optional string: `None` is a member of
no set. -/
def stageIn (stage : Option String) (set : List String) : Bool :=
  match stage with
  | some v => set.contains v
  | none => false

/-- `invariants/opportunity.py check_opportunity_invariants`. -/
def check_opportunity_invariants (s : AgentState) : AgentState :=
  match s.opportunity with
  | none => add_violation s "opportunity" "Opportunity data missing"
  | some opportunity =>
    let stage := opportunity.StageName
    let s := if !truthyStr opportunity.Id then
        add_violation s "opportunity" "Opportunity.Id is required" else s
    let s := if !truthyStr opportunity.AccountId then
        add_violation s "opportunity" "Opportunity.AccountId is required" else s
    let s := if !truthyStr stage then
        add_violation s "opportunity" "Opportunity.StageName is required" else s
    let s := if truthyStr stage && !stageIn stage WON_STAGES && !stageIn stage OPEN_STAGES then
        add_violation s "opportunity" ("Invalid StageName: " ++ stage.getD "") else s
    let s := if truthyStr stage && !stageIn stage WON_STAGES then
        add_violation s "opportunity" ("Opportunity not won (stage: " ++ stage.getD "" ++ ")")
      else s
    if stageIn stage WON_STAGES then
      let s := if !truthyNum opportunity.Amount then
          add_warning s "opportunity" "Closed Won opportunity has no Amount" else s
      let s := if !truthyStr opportunity.CloseDate then
          add_warning s "opportunity" "Closed Won opportunity missing CloseDate" else s
      let s := if !truthyStr opportunity.OwnerId then
          add_warning s "opportunity" "Closed Won opportunity has no OwnerId" else s
      if !truthyStr opportunity.ContractId then
        add_warning s "opportunity" "Closed Won opportunity not linked to Contract" else s
    else s

/-- `invariants/contract.py VALID_CLM_STATUSES`. -/
def VALID_CLM_STATUSES : List String := ["DRAFT", "SENT", "SIGNED", "EXECUTED", "EXPIRED", "VOIDED"]

/-- `invariants/contract.py PROCEED_STATUSES`. -/
def PROCEED_STATUSES : List String := ["EXECUTED", "SIGNED"]

/-- The error-response statuses `check_contract_invariants` skips. -/
def CLM_ERROR_STATUSES : List String := ["AUTH_ERROR", "PERMISSION_ERROR", "SERVER_ERROR",
  "API_ERROR", "NOT_FOUND", "VALIDATION_ERROR", "RATE_LIMIT_ERROR"]

/-- `invariants/contract.py check_contract_invariants` (validates the CLM
record stored under `state["clm"]`). -/
def check_contract_invariants (s : AgentState) : AgentState :=
  match s.clm with
  | none => add_violation s "contract" "CLM contract data missing - cannot verify signatures"
  | some clm_contract =>
    if stageIn clm_contract.status CLM_ERROR_STATUSES then s
    else
      let status := strToUpper (clm_contract.status.getD "")
      let s := if !truthyStr clm_contract.contract_id then
          add_violation s "contract" "CLM contract ID is missing" else s
      let s := if !status.isEmpty && !VALID_CLM_STATUSES.contains status then
          add_violation s "contract" ("Invalid CLM contract status: " ++ status) else s
      let s :=
        if !status.isEmpty && !PROCEED_STATUSES.contains status then
          if status = "DRAFT" then
            add_violation s "contract" "Contract is still in DRAFT - not yet sent for signatures"
          else if status = "SENT" then
            add_violation s "contract" "Contract sent but awaiting signatures - cannot proceed"
          else if status = "EXPIRED" then
            add_violation s "contract" "Contract has EXPIRED - needs renewal"
          else if status = "VOIDED" then
            add_violation s "contract" "Contract has been VOIDED - cannot proceed"
          else
            add_violation s "contract"
              ("Contract status \u0027" ++ status ++ "\u0027 does not allow onboarding")
        else s
      let s := if !truthyStr clm_contract.effective_date then
          add_warning s "contract" "Contract has no effective date set" else s
      let s := if !truthyStr clm_contract.expiry_date then
          add_warning s "contract" "Contract has no expiry date - renewal tracking limited" else s
      let pending := clm_contract.pending_signatories
      if !pending.isEmpty then
        add_warning s "contract" ("Signatures still pending from: " ++
          String.intercalate ", " (pending.map (fun p => p.name.getD "Unknown")))
      else s

/-- Insert thousands separators into a reversed digit list (helper for
the `,` format spec). -/
def commaRev (l : List Char) : List Char :=
  match l with
  | a :: b :: c :: d :: rest => a :: b :: c :: ',' :: commaRev (d :: rest)
  | l => l

/-- Decimal digits of a natural number with thousands separators. -/
def groupDigits (n : ℕ) : String :=
  String.mk (commaRev (toString n).toList.reverse).reverse

/-- Round-half-even of the fraction `num / den` (`0 ≤ num`, `0 < den`),
matching Python float formatting with `:.0f` on the exact fractions the
invoice check produces. -/
def roundHalfEvenFrac (num den : ℤ) : ℤ :=
  let q := num / den
  let r := num % den
  if 2 * r < den then q
  else if den < 2 * r then q + 1
  else if q % 2 = 0 then q else q + 1

/-- Python `f"{x:.0f}"` on the (non-negative) percentage `num / den`. -/
def pyFormat0f (num den : ℤ) : String :=
  toString (roundHalfEvenFrac num den)

/-- Python `f"{x:,.2f}"` on a (non-negative) monetary amount given in
exact cents. -/
def pyFormatMoney (cents : ℤ) : String :=
  let n := cents.toNat
  let intPart := n / 100
  let frac := n % 100
  let fracStr := if frac < 10 then "0" ++ toString frac else toString frac
  groupDigits intPart ++ "." ++ fracStr

/-- `invariants/invoice.py VALID_INVOICE_STATUSES`. -/
def VALID_INVOICE_STATUSES : List String := ["PAID", "OPEN", "PENDING", "OVERDUE", "DRAFT",
  "VOIDED", "CANCELLED"]

/-- `invariants/invoice.py check_invoice_invariants`.  Monetary amounts
are in cents, so the paid-percentage comparison and format are done on
the exact fraction `(total - amount_remaining) * 100 / total` by
cross-multiplication. -/
def check_invoice_invariants (s : AgentState) : AgentState :=
  match s.invoice with
  | none => add_warning s "invoice" "Invoice data not found in NetSuite"
  | some invoice =>
    if invoice.status = "NOT_FOUND" then
      add_warning s "invoice" "No invoice found for this account"
    else if invoice.status = "API_ERROR" then
      add_warning s "invoice" ("NetSuite API error: " ++ invoice.error.getD "Unknown")
    else
      let status := invoice.status
      let invoice_id := invoice.invoice_id.getD "Unknown"
      let s := if !truthyStr invoice.invoice_id then
          add_violation s "invoice" "Invoice ID is missing" else s
      let s := if !VALID_INVOICE_STATUSES.contains status then
          add_violation s "invoice" ("Invalid invoice status: " ++ status) else s
      let s := if status = "VOIDED" then
          add_violation s "invoice" ("Invoice " ++ invoice_id ++ " has been voided") else s
      let s := if status = "CANCELLED" then
          add_violation s "invoice" ("Invoice " ++ invoice_id ++ " has been cancelled") else s
      let s := if status = "OPEN" then
          add_warning s "invoice" ("Invoice " ++ invoice_id ++ " is open with $" ++
            pyFormatMoney (invoice.amount_remaining.getD 0) ++ " remaining") else s
      let s := if status = "OVERDUE" then
          add_warning s "invoice" ("Invoice " ++ invoice_id ++ " is " ++
            toString (invoice.days_overdue.getD 0) ++ " days overdue ($" ++
            pyFormatMoney (invoice.amount_remaining.getD 0) ++
            " outstanding) - escalate to Finance") else s
      let s := if status = "DRAFT" then
          add_warning s "invoice"
            ("Invoice " ++ invoice_id ++
             " is still in draft/pending approval - not yet sent to customer") else s
      let s := if !truthyNum invoice.total && invoice.total ≠ some 0 then
          add_warning s "invoice" "Invoice total amount is missing" else s
      let s := if !truthyStr invoice.due_date then
          add_warning s "invoice" "Invoice due date is missing" else s
      let s := if !truthyStr invoice.customer_email then
          add_warning s "invoice" "Customer email missing on invoice - cannot send reminders"
        else s
      let amount_remaining := invoice.amount_remaining.getD 0
      let total := invoice.total.getD 0
      if total > 0 && amount_remaining > 0 then
        let paid_num := (total - amount_remaining) * 100
        if paid_num < 50 * total && !(["PAID", "DRAFT"].contains status) then
          add_warning s "invoice"
            ("Less than 50% of invoice paid (" ++ pyFormat0f paid_num total ++ "%)")
        else s
      else s

/-- `risk_analyzer._rule_based_analyze`, the deterministic fallback risk
synthesizer, restricted to the output fields read by the claims (the
`risks`/`recommended_actions` lists and the resolution-time estimate are
read by none).  It reads only the violations and warnings maps and the
account name. -/
def rule_based_analyze (s : AgentState) : RiskAnalysis :=
  let violation_count := countMsgs s.violations
  let warning_count := countMsgs s.warnings
  let risk_level :=
    if violation_count > 0 then
      (if violation_count > 2 then "critical" else "high")
    else if warning_count > 3 then "medium"
    else if warning_count > 0 then "low"
    else "low"
  let account_name := match s.account with
    | some a => a.Name.getD "Unknown Account"
    | none => "Unknown Account"
  let summary :=
    if violation_count > 0 then
      "Onboarding for " ++ account_name ++ " is BLOCKED due to " ++
        toString violation_count ++ " critical issue(s) that must be resolved."
    else if warning_count > 0 then
      "Onboarding for " ++ account_name ++ " can proceed with caution. " ++
        toString warning_count ++ " warning(s) identified for review."
    else
      "Onboarding for " ++ account_name ++ " is ready to proceed. All checks passed."
  { summary := summary
    risk_level := risk_level
    can_proceed_with_warnings := violation_count == 0 }

/-- Ordered lookup in a mock database dict (`MOCK_*.get(key)`). -/
def assocGet {α : Type} (m : List (String × α)) (key : String) : Option α :=
  match m with
  | [] => none
  | (k, v) :: rest => if k = key then some v else assocGet rest key

/-- `salesforce.MOCK_ACCOUNTS`, restricted to the agent-relevant keys. -/
def MOCK_ACCOUNTS : List (String × Account) :=
  [("ACME-001",
    { Id := some "0018Z00003ACMEQ", Name := some "ACME Corp",
      BillingCountry := some "United States", Industry := some "Technology",
      OwnerId := some "0058Z000001OWNER", IsDeleted := some false }),
   ("BETA-002",
    { Id := some "0018Z00003BETAQ", Name := some "Beta Industries",
      BillingCountry := some "Canada", Industry := some "Manufacturing",
      OwnerId := some "0058Z000001OWNER", IsDeleted := some false }),
   ("GAMMA-003",
    { Id := some "0018Z00003GAMMAQ", Name := some "Gamma Startup",
      Industry := some "Fintech",
      OwnerId := some "0058Z000001OWNER", IsDeleted := some false }),
   ("DELETED-004",
    { Id := some "0018Z00003DELTAQ", Name := some "Deleted Corp",
      IsDeleted := some true }),
   ("AUTH-ERROR", { simulate_error := some "authentication" }),
   ("PERM-ERROR", { simulate_error := some "authorization" }),
   ("SERVER-ERROR", { simulate_error := some "server" })]

/-- `salesforce.MOCK_USERS`, restricted to the agent-relevant keys. -/
def MOCK_USERS : List (String × User) :=
  [("0058Z000001OWNER",
    { Id := some "0058Z000001OWNER", Username := some "cs.manager@stackadapt.demo",
      Email := some "cs.manager@stackadapt.demo", FirstName := some "Sarah",
      LastName := some "Johnson", Title := some "Customer Success Manager",
      Department := some "Customer Success", IsActive := some true,
      ProfileId := some "00e8Z000001PROFILE", TimeZoneSidKey := some "America/New_York",
      ManagerId := some "0058Z000001MANAGER" }),
   ("INACTIVE-USER",
    { Id := some "INACTIVE-USER", Username := some "inactive@stackadapt.demo",
      Email := some "inactive@stackadapt.demo", IsActive := some false,
      ProfileId := some "00e8Z000001PROFILE" })]

/-- `salesforce.MOCK_OPPORTUNITIES`, restricted to the agent-relevant
keys; amounts are in cents (source dollars times 100). -/
def MOCK_OPPORTUNITIES : List (String × Opportunity) :=
  [("OPP-ACME-001",
    { Id := some "0068Z000001OPPACME", AccountId := some "0018Z00003ACMEQ",
      StageName := some "Closed Won", Amount := some 15000000,
      CloseDate := some "2024-01-15", OwnerId := some "0058Z000001OWNER",
      ContractId := some "8008Z000000CONTR" }),
   ("OPP-BETA-002",
    { Id := some "0068Z000001OPPBETA", AccountId := some "0018Z00003BETAQ",
      StageName := some "Negotiation", Amount := some 7500000,
      CloseDate := some "2024-02-28", OwnerId := some "0058Z000001OWNER" }),
   ("OPP-GAMMA-003",
    { Id := some "0068Z000001OPPGAMMA", AccountId := some "0018Z00003GAMMAQ",
      StageName := some "Closed Won", Amount := some 2500000,
      CloseDate := some "2024-01-20", OwnerId := some "0058Z000001OWNER" })]

/-- `salesforce.MOCK_CONTRACTS`, restricted to the agent-relevant keys. -/
def MOCK_CONTRACTS : List (String × SFContract) :=
  [("8008Z000000CONTR",
    { Id := some "8008Z000000CONTR", AccountId := some "0018Z00003ACMEQ",
      Status := some "Activated" }),
   ("CONTRACT-DRAFT",
    { Id := some "CONTRACT-DRAFT", AccountId := some "0018Z00003BETAQ",
      Status := some "Draft" }),
   ("CONTRACT-PENDING",
    { Id := some "CONTRACT-PENDING", AccountId := some "0018Z00003GAMMAQ",
      Status := some "In Approval Process" })]

/-- High-level `salesforce.get_account`: `SalesforceNotFoundError` and
every other raised `SalesforceError` (including the simulated
authentication/authorization/server errors of the error-simulation
accounts) are caught and turned into `None` — the wrapper never returns
an error dict. -/
def salesforce_get_account (account_id : String) : Option Account :=
  match assocGet MOCK_ACCOUNTS account_id with
  | none => none
  | some account =>
      if truthyStr account.simulate_error then none
      else some account

/-- High-level `salesforce.get_user`: not-found and raised errors become
`None` (no mock user simulates an error, and the client's credential and
permission checks pass with the default credentials). -/
def salesforce_get_user (user_id : String) : Option User :=
  assocGet MOCK_USERS user_id

/-- `salesforce.get_opportunity_by_account`: resolve the CRM-internal
account id (`None` for error-simulation entries), then scan the
opportunity values in insertion order. -/
def salesforce_get_opportunity_by_account (account_id : String) : Option Opportunity :=
  let account := assocGet MOCK_ACCOUNTS account_id
  let sf_account_id : Option String := match account with
    | some a => if truthyStr a.simulate_error then none else a.Id
    | none => none
  if !truthyStr sf_account_id then none
  else (MOCK_OPPORTUNITIES.map Prod.snd).find? (fun opp => opp.AccountId = sf_account_id)

/-- `salesforce.get_contract_by_account`, analogous to the opportunity
lookup. -/
def salesforce_get_contract_by_account (account_id : String) : Option SFContract :=
  let account := assocGet MOCK_ACCOUNTS account_id
  let sf_account_id : Option String := match account with
    | some a => if truthyStr a.simulate_error then none else a.Id
    | none => none
  if !truthyStr sf_account_id then none
  else (MOCK_CONTRACTS.map Prod.snd).find? (fun contract => contract.AccountId = sf_account_id)

/-- `clm.MOCK_CLM_DB`, restricted to the agent-relevant keys. -/
def MOCK_CLM_DB : List (String × CLMRecord) :=
  [("ACME-001",
    { contract_id := some "CLM-CTR-001",
      name := some "ACME Corp - Enterprise Service Agreement",
      status := some "EXECUTED", effective_date := some "2024-01-01",
      expiry_date := some "2024-12-31",
      signatories :=
        [{ name := some "John Smith", email := some "john.smith@acme.com",
           company := some "ACME Corp", signed := some true },
         { name := some "Sarah Johnson", email := some "sarah.johnson@stackadapt.com",
           company := some "StackAdapt", signed := some true }],
      sla_tier := some "Enterprise" }),
   ("BETA-002",
    { contract_id := some "CLM-CTR-002",
      name := some "Beta Industries - Growth Service Agreement",
      status := some "PENDING_SIGNATURE",
      signatories :=
        [{ name := some "Jane Doe", email := some "jane.doe@beta.com",
           company := some "Beta Industries", signed := some false },
         { name := some "Sarah Johnson", email := some "sarah.johnson@stackadapt.com",
           company := some "StackAdapt", signed := some true }],
      sla_tier := some "Growth" }),
   ("GAMMA-003",
    { contract_id := some "CLM-CTR-003",
      name := some "Gamma Startup - Starter Agreement",
      status := some "DRAFT", signatories := [],
      sla_tier := some "Starter" }),
   ("AUTH-ERROR", { simulate_error := some "authentication" }),
   ("PERM-ERROR", { simulate_error := some "authorization" }),
   ("SERVER-ERROR", { simulate_error := some "server" }),
   ("LOCKED-ERROR", { simulate_error := some "locked" })]

/-- `clm._transform_contract_for_agent`. -/
def clm_transform_contract (contract : CLMRecord) : CLMView :=
  let pending := contract.signatories.filter (fun sg => !(sg.signed.getD false))
  { contract_id := contract.contract_id
    name := contract.name
    status := contract.status
    effective_date := contract.effective_date
    expiry_date := contract.expiry_date
    signatories := contract.signatories
    pending_signatories := pending
    all_signed := pending.isEmpty && !contract.signatories.isEmpty
    sla_tier := contract.sla_tier }

/-- High-level `clm.get_contract`: transformed contract on success, the
`NOT_FOUND` status dict for absent accounts, and for each raised
`CLMError` the status dict built by the matching except branch (with
`error = str(e)` rendered as `[code] message (HTTP status)`).  The
statuses of `errorResp` values are exactly the statuses the fetch node's
error-set membership test matches. -/
def clm_get_contract (account_id : String) : CLMFetchResult :=
  match assocGet MOCK_CLM_DB account_id with
  | none => CLMFetchResult.notFound ("No contract found for account " ++ account_id)
  | some contract =>
      if truthyStr contract.simulate_error then
        if contract.simulate_error = some "authentication" then
          CLMFetchResult.errorResp "AUTH_ERROR"
            "[UNAUTHORIZED] Invalid or expired API key (HTTP 401)" "UNAUTHORIZED" 401
        else if contract.simulate_error = some "authorization" then
          CLMFetchResult.errorResp "PERMISSION_ERROR"
            "[FORBIDDEN] Access denied: cannot read contract (HTTP 403)" "FORBIDDEN" 403
        else if contract.simulate_error = some "server" then
          CLMFetchResult.errorResp "SERVER_ERROR"
            "[INTERNAL_ERROR] Service temporarily unavailable (HTTP 500)" "INTERNAL_ERROR" 500
        else
          CLMFetchResult.errorResp "API_ERROR"
            ("[CONTRACT_LOCKED] Contract " ++ account_id ++ " is locked for editing (HTTP 409)")
            "CONTRACT_LOCKED" 409
      else CLMFetchResult.contract (clm_transform_contract contract)

/-- `netsuite.MOCK_INVOICES_DB`, restricted to the agent-relevant keys;
amounts are in cents (source dollars times 100). -/
def MOCK_INVOICES_DB : List (String × NSInvoiceRecord) :=
  [("1001",
    { id := some "1001", tranId := some "INV-2024-001", externalId := some "ACME-001-INV",
      dueDate := some "2024-01-31", statusId := some "B", total := some 15000000,
      amountRemaining := some 0, email := some "billing@acme.com" }),
   ("1002",
    { id := some "1002", tranId := some "INV-2024-002", externalId := some "BETA-002-INV",
      dueDate := some "2024-02-14", statusId := some "A", total := some 8475000,
      amountRemaining := some 8475000, email := some "ap@betaindustries.ca" }),
   ("1003",
    { id := some "1003", tranId := some "INV-2023-089", externalId := some "GAMMA-003-INV",
      dueDate := some "2023-12-31", statusId := some "A", total := some 2500000,
      amountRemaining := some 2500000, email := some "founders@gammastartup.io" }),
   ("1004",
    { id := some "1004", tranId := some "INV-2024-003", externalId := some "DELTA-004-INV",
      dueDate := some "2024-02-19", statusId := some "E", total := some 5000000,
      amountRemaining := some 5000000 })]

/-- `netsuite.ACCOUNT_TO_INVOICE_MAP`. -/
def ACCOUNT_TO_INVOICE_MAP : List (String × String) :=
  [("ACME-001", "1001"), ("BETA-002", "1002"), ("GAMMA-003", "1003"), ("DELTA-004", "1004"),
   ("AUTH-ERROR", "_auth_error"), ("PERM-ERROR", "_perm_error"),
   ("SERVER-ERROR", "_server_error"), ("VALIDATION-ERROR", "_validation_error")]

/-- Parse `"YYYY-MM-DD"` as `datetime.strptime(..., "%Y-%m-%d")` does at
day granularity (three dash-separated decimal fields; the mock dates are
all valid calendar dates). -/
def parseDate (sdate : String) : Option (ℕ × ℕ × ℕ) :=
  match (splitChar (Char.ofNat 0x2d) sdate.toList).map digitsToNat? with
  | [some y, some m, some d] =>
      if 1 ≤ m && m ≤ 12 && 1 ≤ d && d ≤ 31 then some (y, m, d) else none
  | _ => none

/-- Day number of a proleptic-Gregorian date (1970-01-01 is day 0);
`datetime.date` comparison and `.days` of a difference agree with
comparison and subtraction of day numbers. -/
def daysFromCivil (y m d : ℕ) : ℤ :=
  let yy := if m ≤ 2 then y - 1 else y
  let era := yy / 400
  let yoe := yy % 400
  let mp := (m + 9) % 12
  let doy := (153 * mp + 2) / 5 + d - 1
  let doe := yoe * 365 + yoe / 4 - yoe / 100 + doy
  (era : ℤ) * 146097 + (doe : ℤ) - 719468

/-- `netsuite._transform_invoice_for_agent`, with `date.today()` passed
in as the day number `today`.  Of the transformed keys, the ones read by
the agent are kept. -/
def netsuite_transform_invoice (invoice : NSInvoiceRecord) (today : ℤ) : InvoiceView :=
  let status_map : List (String × String) :=
    [("A", "OPEN"), ("B", "PAID"), ("D", "CANCELLED"), ("E", "DRAFT"), ("V", "VOIDED")]
  let ns_status := invoice.statusId.getD "A"
  let status0 := (assocGet status_map ns_status).getD "UNKNOWN"
  let parsed :=
    if truthyStr invoice.dueDate && status0 = "OPEN" then
      parseDate (invoice.dueDate.getD "")
    else none
  let overdue := match parsed with
    | some (y, m, d) =>
        let due := daysFromCivil y m d
        if today > due then some (today - due) else none
    | none => none
  { invoice_id := invoice.tranId
    status := match overdue with | some _ => "OVERDUE" | none => status0
    days_overdue := some (match overdue with | some k => k | none => 0)
    total := some (invoice.total.getD 0)
    amount_remaining := some (invoice.amountRemaining.getD 0)
    due_date := invoice.dueDate
    customer_email := invoice.email }

/-- High-level `netsuite.get_invoice`: the transform on success, and
status dicts for unmapped accounts, missing records and each simulated
error (with `error = str(e)`).  It never returns `None`. -/
def netsuite_get_invoice (account_id : String) (today : ℤ) : InvoiceView :=
  match assocGet ACCOUNT_TO_INVOICE_MAP account_id with
  | none =>
      { status := "NOT_FOUND", error := some ("No invoice found for account " ++ account_id) }
  | some invoice_id =>
      if invoice_id = "_auth_error" then
        { status := "AUTH_ERROR",
          error := some "[INVALID_LOGIN] Invalid login credentials. Token-based authentication failed. (HTTP 401)",
          error_code := some "INVALID_LOGIN" }
      else if invoice_id = "_perm_error" then
        { status := "PERMISSION_ERROR",
          error := some "[INSUFFICIENT_PERMISSION] You do not have permission to read invoice records (HTTP 403)",
          error_code := some "INSUFFICIENT_PERMISSION" }
      else if invoice_id = "_server_error" then
        { status := "SERVER_ERROR",
          error := some "[UNEXPECTED_ERROR] An unexpected error has occurred. Please try again. (HTTP 500)",
          error_code := some "UNEXPECTED_ERROR" }
      else if invoice_id = "_validation_error" then
        { status := "VALIDATION_ERROR",
          error := some "[INVALID_FIELD_VALUE] Invalid value for field \u0027entity\u0027: Invalid customer reference (HTTP 400)",
          error_code := some "INVALID_FIELD_VALUE" }
      else match assocGet MOCK_INVOICES_DB invoice_id with
        | none => { status := "NOT_FOUND", error := some "[RCRD_DSNT_EXIST] That record does not exist. (HTTP 404)" }
        | some invoice => netsuite_transform_invoice invoice today

/-- `state_utils.record_action` for the one call site, which stores
`type`, `tenant_id`, `tier`, `status` (plus the task summary, omitted). -/
def record_action (s : AgentState) (action_type tenant_id tier status : String) : AgentState :=
  { s with actions_taken := s.actions_taken ++
      [{ action_type := action_type, tenant_id := tenant_id, tier := tier, status := status }] }

/-- `state_utils.record_notification`. -/
def record_notification (s : AgentState) (channel recipient message : String) : AgentState :=
  { s with notifications_sent := s.notifications_sent ++
      [{ channel := channel, recipient := recipient, message := message }] }

/-- `nodes.init_node`. -/
def init_node (s : AgentState) : AgentState :=
  { s with
    stage := "initializing"
    violations := []
    warnings := []
    actions_taken := []
    notifications_sent := []
    api_errors := [] }

/-- The opportunity/contract tail of `nodes.fetch_salesforce_data` (the
account-based lookups after the account and owner fetches succeeded). -/
def fetch_salesforce_tail (s : AgentState) : AgentState :=
  { s with
    opportunity := salesforce_get_opportunity_by_account s.account_id
    contract := salesforce_get_contract_by_account s.account_id }

/-- `nodes.fetch_salesforce_data`.  The two `status == "API_ERROR"`
branches (the DO-NOT-SWALLOW handlers) are translated faithfully but can
never fire, because `salesforce.get_account` / `get_user` return `None`
on every error and the mock records carry no `status` key; the Python
branch indexes `account["error_type"]` directly, modelled with the
record's optional error fields. -/
def fetch_salesforce_data (s : AgentState) : AgentState :=
  let account_id := s.account_id
  let s := { s with stage := "fetching_salesforce" }
  match salesforce_get_account account_id with
  | none => add_violation s "salesforce" ("Account " ++ account_id ++ " not found in Salesforce")
  | some account =>
      if account.status = some "API_ERROR" then
        add_api_error s "salesforce" (account.error_type.getD "") (account.error_code.getD "")
          (account.message.getD "") (account.http_status.getD 0) none
      else
        let s := { s with account := some account }
        if truthyStr account.OwnerId then
          let owner_id := account.OwnerId.getD ""
          match salesforce_get_user owner_id with
          | none =>
              add_violation s "salesforce" ("Owner user " ++ owner_id ++ " not found in Salesforce")
          | some user =>
              if user.status = some "API_ERROR" then
                add_api_error s "salesforce" (user.error_type.getD "") (user.error_code.getD "")
                  (user.message.getD "") (user.http_status.getD 0) none
              else
                fetch_salesforce_tail { s with user := some user }
        else fetch_salesforce_tail s

/-- The `error_type_map` of `nodes.fetch_clm_data`:
status → (error_type, default error code, http status). -/
def clm_error_type_map (status : String) : String × String × ℕ :=
  if status = "AUTH_ERROR" then ("authentication", "UNAUTHORIZED", 401)
  else if status = "PERMISSION_ERROR" then ("authorization", "FORBIDDEN", 403)
  else if status = "SERVER_ERROR" then ("server", "INTERNAL_ERROR", 500)
  else if status = "API_ERROR" then ("server", "API_ERROR", 500)
  else if status = "VALIDATION_ERROR" then ("validation", "VALIDATION_ERROR", 400)
  else if status = "RATE_LIMIT_ERROR" then ("rate_limit", "RATE_LIMIT_EXCEEDED", 429)
  else ("server", "UNKNOWN", 500)

/-- `nodes.fetch_clm_data`, parameterised over the CLM collaborator it
calls (`clm.get_contract` in the source; the graph instantiates it with
`clm_get_contract`). -/
def fetch_clm_data (clmFetch : String → CLMFetchResult) (s : AgentState) : AgentState :=
  let account_id := s.account_id
  let s := { s with stage := "fetching_clm" }
  match clmFetch account_id with
  | CLMFetchResult.errorResp status error error_code _http_status =>
      let p := clm_error_type_map status
      let s := add_api_error s "CLM" p.1 error_code error p.2.2 (some "get_contract")
      { s with clm := none }
  | CLMFetchResult.notFound _ =>
      let s := add_violation s "clm" ("No CLM contract found for account " ++ account_id)
      { s with clm := none }
  | CLMFetchResult.contract v =>
      if v.status = some "NOT_FOUND" then
        let s := add_violation s "clm" ("No CLM contract found for account " ++ account_id)
        { s with clm := none }
      else { s with clm := some v }

/-- The `error_type_map` of `nodes.fetch_invoice_data`. -/
def netsuite_error_type_map (status : String) : String × String × ℕ :=
  if status = "AUTH_ERROR" then ("authentication", "INVALID_LOGIN", 401)
  else if status = "PERMISSION_ERROR" then ("authorization", "INSUFFICIENT_PERMISSION", 403)
  else if status = "VALIDATION_ERROR" then ("validation", "INVALID_FIELD_VALUE", 400)
  else if status = "SERVER_ERROR" then ("server", "UNEXPECTED_ERROR", 500)
  else if status = "API_ERROR" then ("server", "API_ERROR", 500)
  else ("server", "UNKNOWN", 500)

/-- The error statuses `nodes.fetch_invoice_data` treats as API errors. -/
def NETSUITE_ERROR_STATUSES : List String :=
  ["AUTH_ERROR", "PERMISSION_ERROR", "VALIDATION_ERROR", "SERVER_ERROR", "API_ERROR"]

/-- `nodes.fetch_invoice_data`, parameterised over the NetSuite
collaborator (`netsuite.get_invoice` in the source).  The `invoice is
None` branch of the source is dead — `get_invoice` always returns a
dict — so a `NOT_FOUND` status dict reaches the success path and is
stored on the state. -/
def fetch_invoice_data (nsFetch : String → InvoiceView) (s : AgentState) : AgentState :=
  let s := { s with stage := "fetching_invoice" }
  let invoice := nsFetch s.account_id
  if NETSUITE_ERROR_STATUSES.contains invoice.status then
    let p := netsuite_error_type_map invoice.status
    add_api_error s "netsuite" p.1 p.2.1 (invoice.error.getD "NetSuite API error") p.2.2
      (some "get_invoice")
  else
    { s with invoice := some invoice }

/-- `nodes.validate_data`: the five invariant checks in source order. -/
def validate_data (s : AgentState) : AgentState :=
  let s := { s with stage := "validating" }
  let s := check_account_invariants s
  let s := check_user_invariants s
  let s := check_opportunity_invariants s
  let s := check_contract_invariants s
  check_invoice_invariants s

/-- `nodes.analyze_risks_node` on the deterministic fallback path (the
only path when no LLM key is configured; the spec makes this fallback the
contract).  The flattened `recommended_actions` list is omitted. -/
def analyze_risks_node (s : AgentState) : AgentState :=
  let s := { s with stage := "analyzing_risks" }
  { s with risk_analysis := some (rule_based_analyze s) }

/-- `nodes.send_notifications`: records the audit entries of the
notifications the BLOCK / ESCALATE branches dispatch.  The read of the
invoice is hoisted above the notification write it commutes with. -/
def send_notifications (s : AgentState) : AgentState :=
  let account_id := s.account_id
  let account_name := match s.account with
    | some a => a.Name.getD account_id
    | none => account_id
  let invoice := s.invoice
  if s.decision = "BLOCK" then
    let s := record_notification s "slack" "#cs-onboarding-alerts"
      ("Blocked notification sent for " ++ account_name)
    match invoice with
    | some inv =>
        if inv.status = "OVERDUE" then
          record_notification s "slack" "#finance-alerts"
            ("Overdue invoice escalation for " ++ account_name)
        else s
    | none => s
  else if s.decision = "ESCALATE" then
    record_notification s "slack" "#cs-onboarding"
      ("Escalation notification sent for " ++ account_name)
  else s

/-- Python `needle in haystack` for strings. -/
def containsSub (haystack needle : String) : Bool :=
  containsSubList needle.toList haystack.toList

/-- `nodes.provision_account`, parameterised over the provisioning
collaborator (`provisioning.provision_account` in the source).  On the
PROCEED path the CLM record and the user are present dicts (otherwise
validation would have blocked), which the source relies on; their
absent-case defaults here mirror `state.get(..., {})`.  The reads of the
state (tier, customer name, user, signatories) are hoisted above the
audit-trail writes, with which they commute — the writes touch only
`stage`, `provisioning`, `actions_taken` and `notifications_sent`. -/
def provision_account (provisionCollab : String → String → String → ProvisioningResult)
    (s : AgentState) : AgentState :=
  if s.decision ≠ "PROCEED" then s
  else
    let account_id := s.account_id
    let tier := match s.clm with
      | some c => c.sla_tier.getD "Starter"
      | none => "Starter"
    let customer_name := match s.account with
      | some a => a.Name.getD account_id
      | none => account_id
    let prov_result := provisionCollab account_id tier customer_name
    let user := s.user
    let signatories := match s.clm with
      | some c => c.signatories
      | none => []
    let customer_signatory := signatories.find? (fun sg =>
      !containsSub (strToLower (sg.email.getD "")) "stackadapt" &&
      !containsSub (strToLower (sg.company.getD "")) "stackadapt")
    let s := { s with stage := "provisioning" }
    let s := { s with provisioning := some prov_result }
    let s := record_action s "provision" prov_result.tenant_id tier prov_result.status
    let s := { s with stage := "provisioned" }
    let account_name := customer_name
    let s := record_notification s "slack" "#cs-onboarding"
      ("Success notification sent for " ++ account_name)
    let s := match user with
      | some u =>
          if truthyStr u.Email then
            record_notification s "email" (u.Email.getD "")
              ("CS notification sent to " ++ u.Email.getD "")
          else s
      | none => s
    match customer_signatory with
    | some sg =>
        let customer_email := sg.email.getD ""
        record_notification s "email" customer_email
          ("Customer welcome email sent to " ++ customer_email)
    | none => s

/-- `risk_analyzer._fallback_summary`. -/
def fallback_summary (s : AgentState) : String :=
  let account_name := match s.account with
    | some a => a.Name.getD s.account_id
    | none => s.account_id
  let violation_count := countMsgs s.violations
  let warning_count := countMsgs s.warnings
  let lines := ["Onboarding Status for " ++ account_name, "Stage: " ++ s.stage,
    "Decision: " ++ s.decision, "Violations: " ++ toString violation_count,
    "Warnings: " ++ toString warning_count]
  let lines := if !s.actions_taken.isEmpty then
      lines ++ ["Actions Taken: " ++ toString s.actions_taken.length]
    else lines
  String.intercalate "\n" lines

/-- `risk_analyzer.generate_summary`: the risk analysis is always present
and non-empty after `analyze_risks_node`, so its summary is used. -/
def generate_summary (s : AgentState) : String :=
  match s.risk_analysis with
  | some ra => ra.summary
  | none => fallback_summary s

/-- `nodes.generate_summary_node`. -/
def generate_summary_node (s : AgentState) : AgentState :=
  let s := { s with human_summary := generate_summary s }
  { s with stage := "complete" }

/-- `router.after_decision`: the sole conditional edge of the graph. -/
def after_decision (s : AgentState) : String :=
  if s.decision = "PROCEED" then "provision" else "send_notifications"

/-- `graph.run_onboarding` over the compiled graph of `build_graph`:
init → fetch salesforce → fetch clm → fetch invoice → validate →
analyze → decide → (provision | notify) → summary.  `today` is
`date.today()` as a day number; the provisioning collaborator is passed
in. -/
def run_onboarding (provisionCollab : String → String → String → ProvisioningResult)
    (today : ℤ) (account_id correlation_id event_type : String) : AgentState :=
  let s := init_state account_id correlation_id event_type
  let s := init_node s
  let s := fetch_salesforce_data s
  let s := fetch_clm_data clm_get_contract s
  let s := fetch_invoice_data (fun a => netsuite_get_invoice a today) s
  let s := validate_data s
  let s := analyze_risks_node s
  let s := make_decision s
  let s := if after_decision s = "provision" then provision_account provisionCollab s
    else send_notifications s
  generate_summary_node s

/-- `provisioning.provision_account` on a fresh registry: always
provisions with status `"ACTIVE"` and the requested tier; the random
uuid suffix of the tenant id and the onboarding-task checklist are
abstracted (no claim reads them). -/
def mock_provision_account (account_id tier _customer_name : String) : ProvisioningResult :=
  { tenant_id := "TEN-" ++ account_id, account_id := account_id,
    status := "ACTIVE", tier := tier }

/-! ### Basic lemmas about the dict model -/

theorem lookupD_dictAppend_self (m : List (String × List String)) (k v : String) :
    lookupD (dictAppend m k v) k = lookupD m k ++ [v] := by
  induction m with
  | nil => simp [dictAppend, lookupD]
  | cons p rest ih =>
      obtain ⟨pk, pv⟩ := p
      by_cases h : pk = k
      · simp [dictAppend, lookupD, h]
      · simp [dictAppend, lookupD, h, ih]

theorem lookupD_dictAppend_ne (m : List (String × List String)) (k v k' : String)
    (h : k' ≠ k) : lookupD (dictAppend m k v) k' = lookupD m k' := by
  induction m with
  | nil => simp [dictAppend, lookupD, Ne.symm h]
  | cons p rest ih =>
      obtain ⟨pk, pv⟩ := p
      by_cases hp : pk = k
      · subst hp
        simp [dictAppend, lookupD, Ne.symm h]
      · simp [dictAppend, lookupD, hp, ih]

theorem countMsgs_dictAppend (m : List (String × List String)) (k v : String) :
    countMsgs (dictAppend m k v) = countMsgs m + 1 := by
  induction m with
  | nil => simp [dictAppend, countMsgs]
  | cons p rest ih =>
      obtain ⟨pk, pv⟩ := p
      by_cases h : pk = k
      · simp [dictAppend, countMsgs, h]
        omega
      · simp [dictAppend, countMsgs, h] at ih ⊢
        omega

theorem countMsgs_pos_iff (m : List (String × List String)) :
    0 < countMsgs m ↔ ∃ p ∈ m, p.2 ≠ [] := by
  induction m with
  | nil => simp [countMsgs]
  | cons p rest ih =>
      simp only [countMsgs, List.map_cons, List.sum_cons] at ih ⊢
      constructor
      · intro h
        by_cases hp : p.2 = []
        · simp [hp] at h
          obtain ⟨q, hq, hq2⟩ := ih.mp h
          exact ⟨q, List.mem_cons_of_mem _ hq, hq2⟩
        · exact ⟨p, List.mem_cons_self _ _, hp⟩
      · rintro ⟨q, hq, hq2⟩
        rcases List.mem_cons.mp hq with h | h
        · subst h
          have : q.2.length ≠ 0 := fun hl => hq2 (List.eq_nil_of_length_eq_zero hl)
          omega
        · have := ih.mpr ⟨q, h, hq2⟩
          omega

theorem mem_lookupD_dictAppend_of_mem (m : List (String × List String)) (k v k' m' : String)
    (h : m' ∈ lookupD m k') : m' ∈ lookupD (dictAppend m k v) k' := by
  by_cases hk : k' = k
  · subst hk
    rw [lookupD_dictAppend_self]
    exact List.mem_append_left _ h
  · rwa [lookupD_dictAppend_ne _ _ _ _ hk]

theorem mem_lookupD_dictAppend_self (m : List (String × List String)) (k v : String) :
    v ∈ lookupD (dictAppend m k v) k := by
  rw [lookupD_dictAppend_self]
  exact List.mem_append_right _ (List.mem_singleton.mpr rfl)

/-- The violations map after `make_decision` folds the API errors in:
under each key, the prior messages followed by the decision messages of
the errors recorded for that system, in order. -/
theorem lookupD_foldl_apiErrors (errs : List APIErrorInfo)
    (m : List (String × List String)) (k : String) :
    lookupD (errs.foldl (fun acc e => dictAppend acc e.system (apiErrorDecisionMsg e)) m) k
      = lookupD m k ++ (errs.filter (fun e => e.system = k)).map apiErrorDecisionMsg := by
  induction errs generalizing m with
  | nil => simp
  | cons e tl ih =>
      by_cases h : e.system = k
      · rw [List.foldl_cons, ih, h, lookupD_dictAppend_self]
        simp [List.filter_cons, h, List.append_assoc]
      · rw [List.foldl_cons, ih, lookupD_dictAppend_ne _ _ _ _ (Ne.symm h)]
        simp [List.filter_cons, h]

/-! ### Projection lemmas for the state mutators -/

@[simp] theorem add_violation_warnings (s : AgentState) (d m : String) : (add_violation s d m).warnings = s.warnings := rfl
@[simp] theorem add_violation_api_errors (s : AgentState) (d m : String) : (add_violation s d m).api_errors = s.api_errors := rfl
@[simp] theorem add_violation_provisioning (s : AgentState) (d m : String) : (add_violation s d m).provisioning = s.provisioning := rfl
@[simp] theorem add_violation_actions (s : AgentState) (d m : String) : (add_violation s d m).actions_taken = s.actions_taken := rfl
@[simp] theorem add_violation_decision (s : AgentState) (d m : String) : (add_violation s d m).decision = s.decision := rfl
@[simp] theorem add_violation_notifications (s : AgentState) (d m : String) : (add_violation s d m).notifications_sent = s.notifications_sent := rfl
@[simp] theorem add_violation_account_id (s : AgentState) (d m : String) : (add_violation s d m).account_id = s.account_id := rfl
@[simp] theorem add_violation_violations (s : AgentState) (d m : String) : (add_violation s d m).violations = dictAppend s.violations d m := rfl

@[simp] theorem add_warning_violations (s : AgentState) (d m : String) : (add_warning s d m).violations = s.violations := rfl
@[simp] theorem add_warning_api_errors (s : AgentState) (d m : String) : (add_warning s d m).api_errors = s.api_errors := rfl
@[simp] theorem add_warning_provisioning (s : AgentState) (d m : String) : (add_warning s d m).provisioning = s.provisioning := rfl
@[simp] theorem add_warning_actions (s : AgentState) (d m : String) : (add_warning s d m).actions_taken = s.actions_taken := rfl
@[simp] theorem add_warning_decision (s : AgentState) (d m : String) : (add_warning s d m).decision = s.decision := rfl
@[simp] theorem add_warning_notifications (s : AgentState) (d m : String) : (add_warning s d m).notifications_sent = s.notifications_sent := rfl
@[simp] theorem add_warning_account_id (s : AgentState) (d m : String) : (add_warning s d m).account_id = s.account_id := rfl
@[simp] theorem add_warning_warnings (s : AgentState) (d m : String) : (add_warning s d m).warnings = dictAppend s.warnings d m := rfl

@[simp] theorem add_api_error_provisioning (s : AgentState) (a b c d : String) (n : ℕ) (o : Option String) : (add_api_error s a b c d n o).provisioning = s.provisioning := rfl
@[simp] theorem add_api_error_actions (s : AgentState) (a b c d : String) (n : ℕ) (o : Option String) : (add_api_error s a b c d n o).actions_taken = s.actions_taken := rfl
@[simp] theorem add_api_error_decision (s : AgentState) (a b c d : String) (n : ℕ) (o : Option String) : (add_api_error s a b c d n o).decision = s.decision := rfl
@[simp] theorem add_api_error_notifications (s : AgentState) (a b c d : String) (n : ℕ) (o : Option String) : (add_api_error s a b c d n o).notifications_sent = s.notifications_sent := rfl
@[simp] theorem add_api_error_warnings (s : AgentState) (a b c d : String) (n : ℕ) (o : Option String) : (add_api_error s a b c d n o).warnings = s.warnings := rfl
@[simp] theorem add_api_error_account_id (s : AgentState) (a b c d : String) (n : ℕ) (o : Option String) : (add_api_error s a b c d n o).account_id = s.account_id := rfl
@[simp] theorem add_api_error_invoice (s : AgentState) (a b c d : String) (n : ℕ) (o : Option String) : (add_api_error s a b c d n o).invoice = s.invoice := rfl
@[simp] theorem add_api_error_clm (s : AgentState) (a b c d : String) (n : ℕ) (o : Option String) : (add_api_error s a b c d n o).clm = s.clm := rfl

@[simp] theorem record_notification_violations (s : AgentState) (a b c : String) : (record_notification s a b c).violations = s.violations := rfl
@[simp] theorem record_notification_warnings (s : AgentState) (a b c : String) : (record_notification s a b c).warnings = s.warnings := rfl
@[simp] theorem record_notification_api_errors (s : AgentState) (a b c : String) : (record_notification s a b c).api_errors = s.api_errors := rfl
@[simp] theorem record_notification_provisioning (s : AgentState) (a b c : String) : (record_notification s a b c).provisioning = s.provisioning := rfl
@[simp] theorem record_notification_actions (s : AgentState) (a b c : String) : (record_notification s a b c).actions_taken = s.actions_taken := rfl
@[simp] theorem record_notification_decision (s : AgentState) (a b c : String) : (record_notification s a b c).decision = s.decision := rfl

@[simp] theorem record_action_violations (s : AgentState) (a b c d : String) : (record_action s a b c d).violations = s.violations := rfl
@[simp] theorem record_action_warnings (s : AgentState) (a b c d : String) : (record_action s a b c d).warnings = s.warnings := rfl
@[simp] theorem record_action_api_errors (s : AgentState) (a b c d : String) : (record_action s a b c d).api_errors = s.api_errors := rfl
@[simp] theorem record_action_provisioning (s : AgentState) (a b c d : String) : (record_action s a b c d).provisioning = s.provisioning := rfl
@[simp] theorem record_action_decision (s : AgentState) (a b c d : String) : (record_action s a b c d).decision = s.decision := rfl

@[simp] theorem ite_state_provisioning (c : Prop) [Decidable c] (a b : AgentState) : (if c then a else b).provisioning = if c then a.provisioning else b.provisioning := apply_ite _ _ _ _
@[simp] theorem ite_state_actions (c : Prop) [Decidable c] (a b : AgentState) : (if c then a else b).actions_taken = if c then a.actions_taken else b.actions_taken := apply_ite _ _ _ _
@[simp] theorem ite_state_decision (c : Prop) [Decidable c] (a b : AgentState) : (if c then a else b).decision = if c then a.decision else b.decision := apply_ite _ _ _ _
@[simp] theorem ite_state_notifications (c : Prop) [Decidable c] (a b : AgentState) : (if c then a else b).notifications_sent = if c then a.notifications_sent else b.notifications_sent := apply_ite _ _ _ _
@[simp] theorem ite_state_api_errors (c : Prop) [Decidable c] (a b : AgentState) : (if c then a else b).api_errors = if c then a.api_errors else b.api_errors := apply_ite _ _ _ _
@[simp] theorem ite_state_violations (c : Prop) [Decidable c] (a b : AgentState) : (if c then a else b).violations = if c then a.violations else b.violations := apply_ite _ _ _ _
@[simp] theorem ite_state_warnings (c : Prop) [Decidable c] (a b : AgentState) : (if c then a else b).warnings = if c then a.warnings else b.warnings := apply_ite _ _ _ _
@[simp] theorem ite_state_account_id (c : Prop) [Decidable c] (a b : AgentState) : (if c then a else b).account_id = if c then a.account_id else b.account_id := apply_ite _ _ _ _

/-! ### Characterisation of `make_decision` -/

theorem make_decision_api_errors (s : AgentState) :
    (make_decision s).api_errors = s.api_errors := by
  simp only [make_decision]
  split_ifs <;> rfl

theorem make_decision_warnings (s : AgentState) :
    (make_decision s).warnings = s.warnings := by
  simp only [make_decision]
  split_ifs <;> rfl

theorem make_decision_provisioning (s : AgentState) :
    (make_decision s).provisioning = s.provisioning := by
  simp only [make_decision]
  split_ifs <;> rfl

theorem make_decision_actions (s : AgentState) :
    (make_decision s).actions_taken = s.actions_taken := by
  simp only [make_decision]
  split_ifs <;> rfl

theorem make_decision_notifications (s : AgentState) :
    (make_decision s).notifications_sent = s.notifications_sent := by
  simp only [make_decision]
  split_ifs <;> rfl

theorem make_decision_account_id (s : AgentState) :
    (make_decision s).account_id = s.account_id := by
  simp only [make_decision]
  split_ifs <;> rfl

theorem make_decision_violations_of_api_nil (s : AgentState) (h : s.api_errors = []) :
    (make_decision s).violations = s.violations := by
  simp only [make_decision, h]
  split_ifs <;> simp

theorem make_decision_violations_of_api_pos (s : AgentState) (h : s.api_errors ≠ []) :
    (make_decision s).violations = s.api_errors.foldl
      (fun m e => dictAppend m e.system (apiErrorDecisionMsg e)) s.violations := by
  simp only [make_decision]
  rw [if_pos (List.length_pos.mpr h)]

theorem make_decision_decision_eq (s : AgentState) :
    (make_decision s).decision =
      (if 0 < s.api_errors.length then "BLOCK"
       else if 0 < countMsgs s.violations then "BLOCK"
       else if 0 < countMsgs s.warnings then "ESCALATE"
       else "PROCEED") := by
  simp only [make_decision]
  split_ifs <;> rfl

theorem make_decision_block_of_api (s : AgentState) (h : s.api_errors ≠ []) :
    (make_decision s).decision = "BLOCK" := by
  rw [make_decision_decision_eq, if_pos (List.length_pos.mpr h)]

theorem make_decision_block_of_viol (s : AgentState) (h : 0 < countMsgs s.violations) :
    (make_decision s).decision = "BLOCK" := by
  rw [make_decision_decision_eq]
  split_ifs <;> first | rfl | omega

theorem make_decision_escalate (s : AgentState) (h1 : s.api_errors = [])
    (h2 : countMsgs s.violations = 0) (h3 : 0 < countMsgs s.warnings) :
    (make_decision s).decision = "ESCALATE" := by
  rw [make_decision_decision_eq]
  split_ifs <;> first | rfl | omega | simp_all

theorem make_decision_proceed (s : AgentState) (h1 : s.api_errors = [])
    (h2 : countMsgs s.violations = 0) (h3 : countMsgs s.warnings = 0) :
    make_decision s = { s with decision := "PROCEED", stage := "ready_to_provision" } := by
  simp only [make_decision]
  split_ifs <;> first | rfl | omega | simp_all

theorem make_decision_proceed_iff (s : AgentState) :
    (make_decision s).decision = "PROCEED" ↔
      s.api_errors = [] ∧ countMsgs s.violations = 0 ∧ countMsgs s.warnings = 0 := by
  constructor
  · intro h
    by_cases h1 : s.api_errors = []
    · by_cases h2 : countMsgs s.violations = 0
      · by_cases h3 : countMsgs s.warnings = 0
        · exact ⟨h1, h2, h3⟩
        · rw [make_decision_escalate s h1 h2 (Nat.pos_of_ne_zero h3)] at h
          exact absurd h (by decide)
      · rw [make_decision_block_of_viol s (Nat.pos_of_ne_zero h2)] at h
        exact absurd h (by decide)
    · rw [make_decision_block_of_api s h1] at h
      exact absurd h (by decide)
  · rintro ⟨h1, h2, h3⟩
    rw [make_decision_proceed s h1 h2 h3]

theorem make_decision_escalate_iff (s : AgentState) :
    (make_decision s).decision = "ESCALATE" ↔
      s.api_errors = [] ∧ countMsgs s.violations = 0 ∧ 0 < countMsgs s.warnings := by
  constructor
  · intro h
    by_cases h1 : s.api_errors = []
    · by_cases h2 : countMsgs s.violations = 0
      · by_cases h3 : countMsgs s.warnings = 0
        · rw [make_decision_proceed s h1 h2 h3] at h
          simp at h
        · exact ⟨h1, h2, Nat.pos_of_ne_zero h3⟩
      · rw [make_decision_block_of_viol s (Nat.pos_of_ne_zero h2)] at h
        exact absurd h (by decide)
    · rw [make_decision_block_of_api s h1] at h
      exact absurd h (by decide)
  · rintro ⟨h1, h2, h3⟩
    exact make_decision_escalate s h1 h2 h3

theorem make_decision_block_iff (s : AgentState) :
    (make_decision s).decision = "BLOCK" ↔
      s.api_errors ≠ [] ∨ 0 < countMsgs s.violations := by
  constructor
  · intro h
    by_cases h1 : s.api_errors = []
    · by_cases h2 : countMsgs s.violations = 0
      · by_cases h3 : countMsgs s.warnings = 0
        · rw [make_decision_proceed s h1 h2 h3] at h
          simp at h
        · rw [make_decision_escalate s h1 h2 (Nat.pos_of_ne_zero h3)] at h
          exact absurd h (by decide)
      · exact Or.inr (Nat.pos_of_ne_zero h2)
    · exact Or.inl h1
  · rintro (h | h)
    · exact make_decision_block_of_api s h
    · exact make_decision_block_of_viol s h

/-! ### The pre-decision nodes do not touch the audit fields -/

theorem fetch_salesforce_data_pres (s : AgentState) :
    (fetch_salesforce_data s).provisioning = s.provisioning ∧
    (fetch_salesforce_data s).actions_taken = s.actions_taken ∧
    (fetch_salesforce_data s).decision = s.decision ∧
    (fetch_salesforce_data s).notifications_sent = s.notifications_sent := by
  unfold fetch_salesforce_data fetch_salesforce_tail
  rcases hacc : salesforce_get_account s.account_id with _ | account
  · simp [hacc]
  · rcases hu : salesforce_get_user (account.OwnerId.getD "") with _ | user <;>
      simp [hacc, hu]

theorem fetch_clm_data_pres (f : String → CLMFetchResult) (s : AgentState) :
    (fetch_clm_data f s).provisioning = s.provisioning ∧
    (fetch_clm_data f s).actions_taken = s.actions_taken ∧
    (fetch_clm_data f s).decision = s.decision ∧
    (fetch_clm_data f s).notifications_sent = s.notifications_sent := by
  unfold fetch_clm_data
  rcases h : f s.account_id with v | e | ⟨a, b, c, d⟩ <;> simp [h]

theorem fetch_invoice_data_pres (g : String → InvoiceView) (s : AgentState) :
    (fetch_invoice_data g s).provisioning = s.provisioning ∧
    (fetch_invoice_data g s).actions_taken = s.actions_taken ∧
    (fetch_invoice_data g s).decision = s.decision ∧
    (fetch_invoice_data g s).notifications_sent = s.notifications_sent := by
  unfold fetch_invoice_data
  simp

theorem check_account_invariants_pres (s : AgentState) :
    (check_account_invariants s).provisioning = s.provisioning ∧
    (check_account_invariants s).actions_taken = s.actions_taken ∧
    (check_account_invariants s).decision = s.decision ∧
    (check_account_invariants s).notifications_sent = s.notifications_sent ∧
    (check_account_invariants s).api_errors = s.api_errors := by
  unfold check_account_invariants
  rcases h : s.account with _ | a <;> simp [h]

theorem check_user_invariants_pres (s : AgentState) :
    (check_user_invariants s).provisioning = s.provisioning ∧
    (check_user_invariants s).actions_taken = s.actions_taken ∧
    (check_user_invariants s).decision = s.decision ∧
    (check_user_invariants s).notifications_sent = s.notifications_sent ∧
    (check_user_invariants s).api_errors = s.api_errors := by
  unfold check_user_invariants
  rcases h : s.user with _ | u <;> simp [h]

theorem check_opportunity_invariants_pres (s : AgentState) :
    (check_opportunity_invariants s).provisioning = s.provisioning ∧
    (check_opportunity_invariants s).actions_taken = s.actions_taken ∧
    (check_opportunity_invariants s).decision = s.decision ∧
    (check_opportunity_invariants s).notifications_sent = s.notifications_sent ∧
    (check_opportunity_invariants s).api_errors = s.api_errors := by
  unfold check_opportunity_invariants
  rcases h : s.opportunity with _ | o <;> simp [h]

theorem check_contract_invariants_pres (s : AgentState) :
    (check_contract_invariants s).provisioning = s.provisioning ∧
    (check_contract_invariants s).actions_taken = s.actions_taken ∧
    (check_contract_invariants s).decision = s.decision ∧
    (check_contract_invariants s).notifications_sent = s.notifications_sent ∧
    (check_contract_invariants s).api_errors = s.api_errors := by
  unfold check_contract_invariants
  rcases h : s.clm with _ | c <;> simp [h]

theorem check_invoice_invariants_pres (s : AgentState) :
    (check_invoice_invariants s).provisioning = s.provisioning ∧
    (check_invoice_invariants s).actions_taken = s.actions_taken ∧
    (check_invoice_invariants s).decision = s.decision ∧
    (check_invoice_invariants s).notifications_sent = s.notifications_sent ∧
    (check_invoice_invariants s).api_errors = s.api_errors := by
  unfold check_invoice_invariants
  rcases h : s.invoice with _ | v <;> simp [h]

theorem validate_data_pres (s : AgentState) :
    (validate_data s).provisioning = s.provisioning ∧
    (validate_data s).actions_taken = s.actions_taken ∧
    (validate_data s).decision = s.decision ∧
    (validate_data s).notifications_sent = s.notifications_sent ∧
    (validate_data s).api_errors = s.api_errors := by
  unfold validate_data
  have h1 := check_account_invariants_pres { s with stage := "validating" }
  have h2 := check_user_invariants_pres (check_account_invariants { s with stage := "validating" })
  have h3 := check_opportunity_invariants_pres (check_user_invariants (check_account_invariants { s with stage := "validating" }))
  have h4 := check_contract_invariants_pres (check_opportunity_invariants (check_user_invariants (check_account_invariants { s with stage := "validating" })))
  have h5 := check_invoice_invariants_pres (check_contract_invariants (check_opportunity_invariants (check_user_invariants (check_account_invariants { s with stage := "validating" }))))
  refine ⟨?_, ?_, ?_, ?_, ?_⟩ <;>
    simp only [h1.1, h1.2.1, h1.2.2.1, h1.2.2.2.1, h1.2.2.2.2,
      h2.1, h2.2.1, h2.2.2.1, h2.2.2.2.1, h2.2.2.2.2,
      h3.1, h3.2.1, h3.2.2.1, h3.2.2.2.1, h3.2.2.2.2,
      h4.1, h4.2.1, h4.2.2.1, h4.2.2.2.1, h4.2.2.2.2,
      h5.1, h5.2.1, h5.2.2.1, h5.2.2.2.1, h5.2.2.2.2]

theorem analyze_risks_node_pres (s : AgentState) :
    (analyze_risks_node s).provisioning = s.provisioning ∧
    (analyze_risks_node s).actions_taken = s.actions_taken ∧
    (analyze_risks_node s).decision = s.decision ∧
    (analyze_risks_node s).notifications_sent = s.notifications_sent ∧
    (analyze_risks_node s).api_errors = s.api_errors ∧
    (analyze_risks_node s).violations = s.violations ∧
    (analyze_risks_node s).warnings = s.warnings := by
  exact ⟨rfl, rfl, rfl, rfl, rfl, rfl, rfl⟩

/-! ### Behaviour of the post-decision branch nodes -/

theorem provision_account_skip (pc : String → String → String → ProvisioningResult)
    (s : AgentState) (h : s.decision ≠ "PROCEED") :
    provision_account pc s = s := by
  unfold provision_account
  rw [if_pos h]

theorem provision_account_run (pc : String → String → String → ProvisioningResult)
    (s : AgentState) (h : s.decision = "PROCEED") :
    (provision_account pc s).provisioning.isSome = true ∧
    ((provision_account pc s).actions_taken.filter (fun a => a.action_type = "provision")).length
      = ((s.actions_taken.filter (fun a => a.action_type = "provision")).length + 1) ∧
    (provision_account pc s).violations = s.violations ∧
    (provision_account pc s).warnings = s.warnings ∧
    (provision_account pc s).api_errors = s.api_errors ∧
    (provision_account pc s).decision = s.decision := by
  unfold provision_account
  rw [if_neg (by simp [h])]
  rcases hu : s.user with _ | u <;>
    rcases hcs : (match s.clm with | some c => c.signatories | none => ([] : List Signatory)).find?
        (fun sg : Signatory =>
          !containsSub (strToLower (sg.email.getD "")) "stackadapt" &&
          !containsSub (strToLower (sg.company.getD "")) "stackadapt") with _ | sg <;>
    simp [hu, hcs, record_action, record_notification, List.filter_append]

theorem send_notifications_pres (s : AgentState) :
    (send_notifications s).provisioning = s.provisioning ∧
    (send_notifications s).actions_taken = s.actions_taken ∧
    (send_notifications s).violations = s.violations ∧
    (send_notifications s).warnings = s.warnings ∧
    (send_notifications s).api_errors = s.api_errors ∧
    (send_notifications s).decision = s.decision := by
  unfold send_notifications
  rcases hi : s.invoice with _ | v <;> simp [hi]

theorem generate_summary_node_pres (s : AgentState) :
    (generate_summary_node s).provisioning = s.provisioning ∧
    (generate_summary_node s).actions_taken = s.actions_taken ∧
    (generate_summary_node s).violations = s.violations ∧
    (generate_summary_node s).warnings = s.warnings ∧
    (generate_summary_node s).api_errors = s.api_errors ∧
    (generate_summary_node s).decision = s.decision ∧
    (generate_summary_node s).notifications_sent = s.notifications_sent := by
  exact ⟨rfl, rfl, rfl, rfl, rfl, rfl, rfl⟩

@[simp] theorem fetch_salesforce_data_provisioning (s : AgentState) : (fetch_salesforce_data s).provisioning = s.provisioning := (fetch_salesforce_data_pres s).1
@[simp] theorem fetch_salesforce_data_actions (s : AgentState) : (fetch_salesforce_data s).actions_taken = s.actions_taken := (fetch_salesforce_data_pres s).2.1
@[simp] theorem fetch_salesforce_data_decision (s : AgentState) : (fetch_salesforce_data s).decision = s.decision := (fetch_salesforce_data_pres s).2.2.1

@[simp] theorem fetch_clm_data_provisioning (f : String → CLMFetchResult) (s : AgentState) : (fetch_clm_data f s).provisioning = s.provisioning := (fetch_clm_data_pres f s).1
@[simp] theorem fetch_clm_data_actions (f : String → CLMFetchResult) (s : AgentState) : (fetch_clm_data f s).actions_taken = s.actions_taken := (fetch_clm_data_pres f s).2.1
@[simp] theorem fetch_clm_data_decision (f : String → CLMFetchResult) (s : AgentState) : (fetch_clm_data f s).decision = s.decision := (fetch_clm_data_pres f s).2.2.1

@[simp] theorem fetch_invoice_data_provisioning (g : String → InvoiceView) (s : AgentState) : (fetch_invoice_data g s).provisioning = s.provisioning := (fetch_invoice_data_pres g s).1
@[simp] theorem fetch_invoice_data_actions (g : String → InvoiceView) (s : AgentState) : (fetch_invoice_data g s).actions_taken = s.actions_taken := (fetch_invoice_data_pres g s).2.1
@[simp] theorem fetch_invoice_data_decision (g : String → InvoiceView) (s : AgentState) : (fetch_invoice_data g s).decision = s.decision := (fetch_invoice_data_pres g s).2.2.1

@[simp] theorem validate_data_provisioning (s : AgentState) : (validate_data s).provisioning = s.provisioning := (validate_data_pres s).1
@[simp] theorem validate_data_actions (s : AgentState) : (validate_data s).actions_taken = s.actions_taken := (validate_data_pres s).2.1
@[simp] theorem validate_data_decision (s : AgentState) : (validate_data s).decision = s.decision := (validate_data_pres s).2.2.1

@[simp] theorem analyze_risks_node_provisioning (s : AgentState) : (analyze_risks_node s).provisioning = s.provisioning := rfl
@[simp] theorem analyze_risks_node_actions (s : AgentState) : (analyze_risks_node s).actions_taken = s.actions_taken := rfl
@[simp] theorem analyze_risks_node_decision (s : AgentState) : (analyze_risks_node s).decision = s.decision := rfl
@[simp] theorem analyze_risks_node_api_errors (s : AgentState) : (analyze_risks_node s).api_errors = s.api_errors := rfl
@[simp] theorem analyze_risks_node_violations (s : AgentState) : (analyze_risks_node s).violations = s.violations := rfl
@[simp] theorem analyze_risks_node_warnings (s : AgentState) : (analyze_risks_node s).warnings = s.warnings := rfl

@[simp] theorem generate_summary_node_provisioning (s : AgentState) : (generate_summary_node s).provisioning = s.provisioning := rfl
@[simp] theorem generate_summary_node_actions (s : AgentState) : (generate_summary_node s).actions_taken = s.actions_taken := rfl
@[simp] theorem generate_summary_node_violations (s : AgentState) : (generate_summary_node s).violations = s.violations := rfl
@[simp] theorem generate_summary_node_warnings (s : AgentState) : (generate_summary_node s).warnings = s.warnings := rfl
@[simp] theorem generate_summary_node_api_errors (s : AgentState) : (generate_summary_node s).api_errors = s.api_errors := rfl
@[simp] theorem generate_summary_node_decision (s : AgentState) : (generate_summary_node s).decision = s.decision := rfl

@[simp] theorem send_notifications_provisioning (s : AgentState) : (send_notifications s).provisioning = s.provisioning := (send_notifications_pres s).1
@[simp] theorem send_notifications_actions (s : AgentState) : (send_notifications s).actions_taken = s.actions_taken := (send_notifications_pres s).2.1
@[simp] theorem send_notifications_violations (s : AgentState) : (send_notifications s).violations = s.violations := (send_notifications_pres s).2.2.1
@[simp] theorem send_notifications_warnings (s : AgentState) : (send_notifications s).warnings = s.warnings := (send_notifications_pres s).2.2.2.1
@[simp] theorem send_notifications_api_errors (s : AgentState) : (send_notifications s).api_errors = s.api_errors := (send_notifications_pres s).2.2.2.2.1
@[simp] theorem send_notifications_decision (s : AgentState) : (send_notifications s).decision = s.decision := (send_notifications_pres s).2.2.2.2.2

/-! ### Claim C1 -/

/-- C1: at the end of `make_decision` the decision is BLOCK exactly when
the api-error list is non-empty or some domain has a non-empty violation
list; ESCALATE exactly when api errors and violations are empty and some
warning exists; PROCEED exactly when all three are empty; and the
decision is a function of the three counts alone — two states with equal
violation, warning and api-error counts receive the same decision. -/
theorem c1_decision_policy (s : AgentState) :
    ((make_decision s).decision = "BLOCK" ↔
      (make_decision s).api_errors ≠ [] ∨ ∃ p ∈ (make_decision s).violations, p.2 ≠ []) ∧
    ((make_decision s).decision = "ESCALATE" ↔
      s.api_errors = [] ∧ countMsgs s.violations = 0 ∧ 0 < countMsgs s.warnings) ∧
    ((make_decision s).decision = "PROCEED" ↔
      s.api_errors = [] ∧ countMsgs s.violations = 0 ∧ countMsgs s.warnings = 0) ∧
    (∀ t : AgentState, countMsgs s.violations = countMsgs t.violations →
      countMsgs s.warnings = countMsgs t.warnings →
      s.api_errors.length = t.api_errors.length →
      (make_decision s).decision = (make_decision t).decision) := by
  refine ⟨?_, make_decision_escalate_iff s, make_decision_proceed_iff s, ?_⟩
  · rw [make_decision_api_errors]
    constructor
    · intro h
      rcases (make_decision_block_iff s).mp h with ha | hv
      · exact Or.inl ha
      · by_cases ha : s.api_errors = []
        · right
          rw [make_decision_violations_of_api_nil s ha]
          exact (countMsgs_pos_iff _).mp hv
        · exact Or.inl ha
    · rintro (ha | hv)
      · exact make_decision_block_of_api s ha
      · by_cases ha : s.api_errors = []
        · rw [make_decision_violations_of_api_nil s ha] at hv
          exact make_decision_block_of_viol s ((countMsgs_pos_iff _).mpr hv)
        · exact make_decision_block_of_api s ha
  · intro t hv hw ha
    rw [make_decision_decision_eq, make_decision_decision_eq, hv, hw, ha]

/-- Witness for C1: two concrete states that differ everywhere except in
the three counts receive the same decision. -/
theorem c1_decision_policy_witness :
    (make_decision { account_id := "A", violations := [("salesforce", ["v1"])] }).decision
      = (make_decision { account_id := "B", stage := "other", violations := [("contract", ["v2"])] }).decision := by
  exact (c1_decision_policy { account_id := "A", violations := [("salesforce", ["v1"])] }).2.2.2
    { account_id := "B", stage := "other", violations := [("contract", ["v2"])] }
    (by decide) (by decide) (by decide)

/-! ### Claim C5 -/

/-- A state with zero violations, three warnings and no api errors
(the claim would classify it "medium"). -/
def c5_three_warnings : AgentState :=
  { account_id := "X", warnings := [("account", ["w1", "w2", "w3"])] }

/-- A state holding one recorded api error together with its mirrored
violation (the claim would classify it "critical"). -/
def c5_one_api_error : AgentState :=
  { account_id := "X"
    api_errors := [{ system := "CLM", error_type := "authentication",
                     error_code := "UNAUTHORIZED", message := "boom", http_status := 401,
                     operation := "get_contract" }]
    violations := [("api_error", ["CLM API Error [UNAUTHORIZED] during get_contract: boom"])] }

/-- Counterexample for C5: with three warnings and nothing else the
fallback analyzer returns "low", not the claimed "medium" (the threshold
is `> 3`, not `> 2`); and with one api error (one mirrored violation) it
returns "high", not the claimed "critical" — api errors are not read at
all. -/
theorem c5_counterexample :
    countMsgs c5_three_warnings.violations = 0 ∧
    countMsgs c5_three_warnings.warnings = 3 ∧
    c5_three_warnings.api_errors = [] ∧
    (rule_based_analyze c5_three_warnings).risk_level = "low" ∧
    (rule_based_analyze c5_three_warnings).risk_level ≠ "medium" ∧
    c5_one_api_error.api_errors ≠ [] ∧
    countMsgs c5_one_api_error.violations = 1 ∧
    (rule_based_analyze c5_one_api_error).risk_level = "high" ∧
    (rule_based_analyze c5_one_api_error).risk_level ≠ "critical" := by
  decide

/-- C5 as amended: the fallback risk level is a function of the violation
and warning counts only — critical when more than 2 violations, high when
1–2 violations, medium when no violations and more than 3 warnings, low
otherwise.  API errors influence it only through the violation entries
mirrored when they were recorded. -/
theorem c5_risk_level_amended (s : AgentState) :
    ((rule_based_analyze s).risk_level = "critical" ↔ 2 < countMsgs s.violations) ∧
    ((rule_based_analyze s).risk_level = "high" ↔
      0 < countMsgs s.violations ∧ countMsgs s.violations ≤ 2) ∧
    ((rule_based_analyze s).risk_level = "medium" ↔
      countMsgs s.violations = 0 ∧ 3 < countMsgs s.warnings) ∧
    ((rule_based_analyze s).risk_level = "low" ↔
      countMsgs s.violations = 0 ∧ countMsgs s.warnings ≤ 3) := by
  have hrl : (rule_based_analyze s).risk_level =
      (if countMsgs s.violations > 0 then
        (if countMsgs s.violations > 2 then "critical" else "high")
       else if countMsgs s.warnings > 3 then "medium"
       else if countMsgs s.warnings > 0 then "low"
       else "low") := rfl
  refine ⟨?_, ?_, ?_, ?_⟩ <;> rw [hrl] <;> split_ifs <;>
    constructor <;> intro h <;>
      first
        | omega
        | exact absurd h (by decide)
        | (exact absurd h.2 (by omega))
        | (exact absurd h.1 (by omega))
        | rfl
        | (constructor <;> omega)

/-! ### Claim C8 -/

/-- A run state with every domain record absent. -/
def c8_empty_state : AgentState := { account_id := "X" }

/-- Counterexample for C8: on a state with no invoice record, the invoice
rule set records a missing-data WARNING, not a violation — so it is not
the case that all five rule sets record a missing violation. -/
theorem c8_counterexample :
    c8_empty_state.invoice = none ∧
    (check_invoice_invariants c8_empty_state).violations = [] ∧
    (check_invoice_invariants c8_empty_state).warnings
      = [("invoice", ["Invoice data not found in NetSuite"])] := by
  decide

/-- C8 as amended: when the corresponding record is absent, the account,
user, opportunity and contract rule sets each record exactly one missing
violation for their domain and return at once (the result state is
exactly one `add_violation`), while the invoice rule set records exactly
one missing WARNING and returns at once.  All five are pure state
transformers that consult no collaborator. -/
theorem c8_missing_record_rules (s : AgentState) :
    (s.account = none →
      check_account_invariants s = add_violation s "account" "Account data missing") ∧
    (s.user = none →
      check_user_invariants s = add_violation s "user" "User data missing") ∧
    (s.opportunity = none →
      check_opportunity_invariants s = add_violation s "opportunity" "Opportunity data missing") ∧
    (s.clm = none →
      check_contract_invariants s
        = add_violation s "contract" "CLM contract data missing - cannot verify signatures") ∧
    (s.invoice = none →
      check_invoice_invariants s = add_warning s "invoice" "Invoice data not found in NetSuite") := by
  refine ⟨fun h => ?_, fun h => ?_, fun h => ?_, fun h => ?_, fun h => ?_⟩ <;>
    simp only [check_account_invariants, check_user_invariants, check_opportunity_invariants,
      check_contract_invariants, check_invoice_invariants, h]

/-- Witness for C8's amended theorem at the all-absent state. -/
theorem c8_missing_record_rules_witness :
    check_account_invariants c8_empty_state
        = add_violation c8_empty_state "account" "Account data missing" ∧
    check_user_invariants c8_empty_state
        = add_violation c8_empty_state "user" "User data missing" ∧
    check_opportunity_invariants c8_empty_state
        = add_violation c8_empty_state "opportunity" "Opportunity data missing" ∧
    check_contract_invariants c8_empty_state
        = add_violation c8_empty_state "contract" "CLM contract data missing - cannot verify signatures" ∧
    check_invoice_invariants c8_empty_state
        = add_warning c8_empty_state "invoice" "Invoice data not found in NetSuite" := by
  have h := c8_missing_record_rules c8_empty_state
  exact ⟨h.1 rfl, h.2.1 rfl, h.2.2.1 rfl, h.2.2.2.1 rfl, h.2.2.2.2 rfl⟩

/-! ### Claim C10 -/

/-- C10: when `make_decision` runs on a state with recorded api errors,
it appends — under each error's system name, in order — one violation
message of the form `API Error (<type>): <message> [Code: <code>]`; the
mirror list under `"api_error"` is untouched (no recorded error has
system name `"api_error"`), so each error ends up represented under two
distinct domain keys. -/
theorem c10_api_errors_folded_into_violations (s : AgentState)
    (h : s.api_errors ≠ []) (h2 : ∀ e ∈ s.api_errors, e.system ≠ "api_error") :
    (∀ k, lookupD (make_decision s).violations k =
       lookupD s.violations k ++
         ((s.api_errors.filter (fun e => e.system = k)).map apiErrorDecisionMsg)) ∧
    lookupD (make_decision s).violations "api_error" = lookupD s.violations "api_error" ∧
    ∀ e ∈ s.api_errors, apiErrorDecisionMsg e ∈ lookupD (make_decision s).violations e.system := by
  have hv := make_decision_violations_of_api_pos s h
  refine ⟨fun k => by rw [hv, lookupD_foldl_apiErrors], ?_, ?_⟩
  · rw [hv, lookupD_foldl_apiErrors]
    have hf : s.api_errors.filter (fun e => e.system = "api_error") = [] := by
      refine List.filter_eq_nil.mpr (fun e he => ?_)
      simpa using h2 e he
    simp [hf]
  · intro e he
    rw [hv, lookupD_foldl_apiErrors]
    exact List.mem_append_right _
      (List.mem_map_of_mem _ (List.mem_filter.mpr ⟨he, by simp⟩))

/-- The error record used by the C10 witness. -/
def c10_err : APIErrorInfo :=
  { system := "netsuite", error_type := "authentication", error_code := "INVALID_LOGIN",
    message := "login failed", http_status := 401, operation := "get_invoice" }

/-- A state holding `c10_err` and its mirrored violation. -/
def c10_state : AgentState :=
  { account_id := "X", api_errors := [c10_err],
    violations := [("api_error", ["NETSUITE API Error [INVALID_LOGIN] during get_invoice: login failed"])] }

/-- Witness for C10 at a concrete one-error state. -/
theorem c10_api_errors_folded_witness :
    apiErrorDecisionMsg c10_err ∈ lookupD (make_decision c10_state).violations c10_err.system ∧
    lookupD (make_decision c10_state).violations "api_error"
      = lookupD c10_state.violations "api_error" := by
  have h := c10_api_errors_folded_into_violations c10_state (by decide) (by decide)
  exact ⟨h.2.2 c10_err (by decide), h.2.1⟩

/-! ### Claim C3 -/

/-- The recording operations a run performs on the violation/warning maps
and the api-error list (`state_utils.add_violation`, `add_warning` and
`add_api_error`). -/
inductive StateOp where
  | violation (domain message : String)
  | warning (domain message : String)
  | apiError (system error_type error_code message : String)
      (http_status : ℕ) (operation : Option String)
deriving Repr, DecidableEq

/-- Apply one recording operation to the state. -/
def applyOp (s : AgentState) (op : StateOp) : AgentState :=
  match op with
  | StateOp.violation d m => add_violation s d m
  | StateOp.warning d m => add_warning s d m
  | StateOp.apiError sys et ec msg http o => add_api_error s sys et ec msg http o

/-- Apply a sequence of recording operations. -/
def applyOps (s : AgentState) (ops : List StateOp) : AgentState :=
  ops.foldl applyOp s

/-- The mirroring invariant of the error taxonomy: the `"api_error"`
violation list is at least as long as the api-error list, so no recorded
`SystemError` lacks its mirrored violation. -/
def mirror_ok (s : AgentState) : Prop :=
  s.api_errors.length ≤ (lookupD s.violations "api_error").length

theorem mirror_ok_applyOp (s : AgentState) (op : StateOp) (h : mirror_ok s) :
    mirror_ok (applyOp s op) := by
  rcases op with ⟨d, m⟩ | ⟨d, m⟩ | ⟨sys, et, ec, msg, http, o⟩
  · unfold mirror_ok at h ⊢
    simp only [applyOp, add_violation_api_errors, add_violation_violations]
    by_cases hd : d = "api_error"
    · subst hd
      rw [lookupD_dictAppend_self]
      simp only [List.length_append, List.length_cons, List.length_nil]
      omega
    · rwa [lookupD_dictAppend_ne _ _ _ _ (fun hh => hd hh.symm)]
  · unfold mirror_ok at h ⊢
    simpa only [applyOp, add_warning_api_errors, add_warning_violations] using h
  · unfold mirror_ok at h ⊢
    show (s.api_errors ++ [_]).length
      ≤ (lookupD (dictAppend s.violations "api_error" _) "api_error").length
    rw [lookupD_dictAppend_self]
    simp only [List.length_append, List.length_cons, List.length_nil]
    omega

theorem mirror_ok_make_decision (s : AgentState) (h : mirror_ok s) :
    mirror_ok (make_decision s) := by
  unfold mirror_ok at h ⊢
  rw [make_decision_api_errors]
  by_cases ha : s.api_errors = []
  · rwa [make_decision_violations_of_api_nil s ha]
  · rw [make_decision_violations_of_api_pos s ha, lookupD_foldl_apiErrors]
    simp only [List.length_append]
    omega

theorem mirror_ok_applyOps (ops : List StateOp) (s : AgentState) (h : mirror_ok s) :
    mirror_ok (applyOps s ops) := by
  induction ops generalizing s with
  | nil => exact h
  | cons op tl ih => exact ih (applyOp s op) (mirror_ok_applyOp s op h)

/-- C3: `add_api_error` appends exactly one entry to `api_errors` and, in
the same step, exactly one mirrored message to `violations["api_error"]`;
consequently every recording operation (and `make_decision`) preserves
the invariant `|api_errors| ≤ |violations["api_error"]|`, which holds at
every point of a run started from a clean state — no recorded
`SystemError` is silently dropped. -/
theorem c3_api_errors_mirrored :
    (∀ (s : AgentState) (sys et ec msg : String) (http : ℕ) (o : Option String),
      (add_api_error s sys et ec msg http o).api_errors.length = s.api_errors.length + 1 ∧
      ∃ op : String, lookupD (add_api_error s sys et ec msg http o).violations "api_error"
        = lookupD s.violations "api_error" ++ [apiErrorMirrorMsg sys ec op msg]) ∧
    (∀ (s : AgentState) (op : StateOp), mirror_ok s → mirror_ok (applyOp s op)) ∧
    (∀ s : AgentState, mirror_ok s → mirror_ok (make_decision s)) ∧
    (∀ (id cid et : String) (ops : List StateOp), mirror_ok (applyOps (init_state id cid et) ops)) := by
  refine ⟨?_, mirror_ok_applyOp, mirror_ok_make_decision, ?_⟩
  · intro s sys et ec msg http o
    constructor
    · show (s.api_errors ++ [_]).length = _
      simp
    · refine ⟨(match o with
        | some x => if x.isEmpty then "unknown" else x
        | none => "unknown"), ?_⟩
      show lookupD (dictAppend s.violations "api_error" _) "api_error" = _
      rw [lookupD_dictAppend_self]
  · intro id cid et ops
    refine mirror_ok_applyOps ops (init_state id cid et) ?_
    show (0 : ℕ) ≤ _
    omega

/-- Witness for C3 at one concrete recording step on a clean state. -/
theorem c3_api_errors_mirrored_witness :
    mirror_ok (applyOp (init_state "X" "c" "demo")
      (StateOp.apiError "CLM" "authentication" "UNAUTHORIZED" "boom" 401 (some "get_contract"))) ∧
    mirror_ok (make_decision (applyOp (init_state "X" "c" "demo")
      (StateOp.apiError "CLM" "authentication" "UNAUTHORIZED" "boom" 401 (some "get_contract")))) := by
  have h0 : mirror_ok (init_state "X" "c" "demo") := by
    show (0 : ℕ) ≤ _
    omega
  have h1 := (c3_api_errors_mirrored).2.1 (init_state "X" "c" "demo")
    (StateOp.apiError "CLM" "authentication" "UNAUTHORIZED" "boom" 401 (some "get_contract")) h0
  exact ⟨h1, (c3_api_errors_mirrored).2.2.1 _ h1⟩

/-! ### Claim C6 -/

/-- A state that already carries a recorded api error (with its mirror),
as it would after a Salesforce-stage SystemError. -/
def c6_state : AgentState :=
  { account_id := "GAMMA-003"
    api_errors := [{ system := "salesforce", error_type := "authentication",
                     error_code := "INVALID_SESSION_ID", message := "expired", http_status := 401,
                     operation := "get_account" }]
    violations := [("api_error", ["SALESFORCE API Error [INVALID_SESSION_ID] during get_account: expired"])] }

/-- Counterexample for C6: on a state whose `api_errors` list is already
non-empty, `fetch_clm_data` and `fetch_invoice_data` still consult their
collaborators — the CLM/NetSuite data lands on the state, and swapping
the collaborator for one that answers not-found changes the result, so
the calls are not skipped. -/
theorem c6_counterexample :
    c6_state.api_errors ≠ [] ∧
    (fetch_clm_data clm_get_contract c6_state).clm ≠ none ∧
    fetch_clm_data clm_get_contract c6_state
      ≠ fetch_clm_data (fun _ => CLMFetchResult.notFound "absent") c6_state ∧
    (fetch_invoice_data (fun a => netsuite_get_invoice a 20738) c6_state).invoice ≠ none ∧
    fetch_invoice_data (fun a => netsuite_get_invoice a 20738) c6_state
      ≠ fetch_invoice_data (fun _ => ({ status := "NOT_FOUND" } : InvoiceView)) c6_state := by
  decide

/-- C6 as amended: the CLM and invoice fetch nodes are unconditional —
on every state (in particular one with `api_errors` non-empty, and
likewise after the account fetch merely reported not-found) they invoke
their collaborator and store its outcome; nothing skips them.  On the
graph, a run for an unknown account still records the CLM not-found
violation and the NetSuite not-found warning. -/
theorem c6_fetches_unconditional (s : AgentState) (f : String → CLMFetchResult)
    (g : String → InvoiceView) :
    ((fetch_clm_data f s).clm = match f s.account_id with
       | CLMFetchResult.contract v => if v.status = some "NOT_FOUND" then none else some v
       | CLMFetchResult.notFound _ => none
       | CLMFetchResult.errorResp _ _ _ _ => none) ∧
    ((fetch_invoice_data g s).invoice =
       if NETSUITE_ERROR_STATUSES.contains (g s.account_id).status then s.invoice
       else some (g s.account_id)) ∧
    (lookupD (run_onboarding mock_provision_account 20738 "MISSING-999" "Missing Co"
        "enterprise").violations "clm"
      = ["No CLM contract found for account MISSING-999"] ∧
     lookupD (run_onboarding mock_provision_account 20738 "MISSING-999" "Missing Co"
        "enterprise").warnings "invoice"
      = ["No invoice found for this account"]) := by
  refine ⟨?_, ?_, by decide⟩
  · rcases h : f s.account_id with v | e | ⟨a, b, c, d⟩
    · by_cases hs : v.status = some "NOT_FOUND" <;> simp [fetch_clm_data, h, hs]
    · simp [fetch_clm_data, h]
    · simp [fetch_clm_data, h]
  · by_cases h : (g s.account_id).status ∈ NETSUITE_ERROR_STATUSES <;>
      simp [fetch_invoice_data, h]

/-! ### Claim C2 -/

set_option maxHeartbeats 1600000 in
/-- C2: on every run, the final decision is PROCEED exactly when the
final violations, warnings and api-error lists are all empty; on the
PROCEED path the provisioning result is set and exactly one action of
type "provision" is recorded, and on every other path no provisioning
result is set and no action at all is recorded. -/
theorem c2_proceed_provisioning (pc : String → String → String → ProvisioningResult)
    (today : ℤ) (aid cid et : String) :
    ((run_onboarding pc today aid cid et).decision = "PROCEED" ↔
      (run_onboarding pc today aid cid et).api_errors = [] ∧
      countMsgs (run_onboarding pc today aid cid et).violations = 0 ∧
      countMsgs (run_onboarding pc today aid cid et).warnings = 0) ∧
    ((run_onboarding pc today aid cid et).decision = "PROCEED" →
      (run_onboarding pc today aid cid et).provisioning.isSome = true ∧
      ((run_onboarding pc today aid cid et).actions_taken.filter
        (fun a => a.action_type = "provision")).length = 1) ∧
    ((run_onboarding pc today aid cid et).decision ≠ "PROCEED" →
      (run_onboarding pc today aid cid et).provisioning = none ∧
      (run_onboarding pc today aid cid et).actions_taken = []) := by
  set s5 := analyze_risks_node (validate_data (fetch_invoice_data
    (fun a => netsuite_get_invoice a today) (fetch_clm_data clm_get_contract
      (fetch_salesforce_data (init_node (init_state aid cid et)))))) with hs5
  set t := make_decision s5 with ht
  have hrun : run_onboarding pc today aid cid et =
      generate_summary_node (if after_decision t = "provision" then provision_account pc t
        else send_notifications t) := rfl
  have hact : t.actions_taken = [] := by
    rw [ht, make_decision_actions, hs5]
    simp [init_node]
  have hprov : t.provisioning = none := by
    rw [ht, make_decision_provisioning, hs5]
    simp [init_node, init_state]
  clear_value t
  clear_value s5
  by_cases hd : t.decision = "PROCEED"
  · have hb : after_decision t = "provision" := by simp [after_decision, hd]
    rw [hrun, hb, if_pos rfl]
    obtain ⟨hp1, hp2, hp3, hp4, hp5, hp6⟩ := provision_account_run pc t hd
    obtain ⟨ha, hv, hw⟩ := (make_decision_proceed_iff s5).mp (by rw [← ht]; exact hd)
    have hviol : t.violations = s5.violations := by
      rw [ht]
      exact make_decision_violations_of_api_nil s5 ha
    have hta : t.api_errors = s5.api_errors := by rw [ht, make_decision_api_errors]
    have htw : t.warnings = s5.warnings := by rw [ht, make_decision_warnings]
    refine ⟨?_, ?_, ?_⟩
    · simp only [generate_summary_node_decision, generate_summary_node_api_errors,
        generate_summary_node_violations, generate_summary_node_warnings,
        hp3, hp4, hp5, hp6, hd, hta, htw, hviol]
      exact iff_of_true trivial ⟨ha, hv, hw⟩
    · intro _
      refine ⟨?_, ?_⟩
      · simp only [generate_summary_node_provisioning]
        exact hp1
      · simp only [generate_summary_node_actions]
        rw [hp2, hact]
        simp
    · intro hne
      exact absurd (by simp [hp6, hd]) hne
  · have hb : after_decision t = "send_notifications" := by simp [after_decision, hd]
    rw [hrun, hb, if_neg (by decide)]
    refine ⟨?_, ?_, ?_⟩
    · simp only [generate_summary_node_decision, generate_summary_node_api_errors,
        generate_summary_node_violations, generate_summary_node_warnings,
        send_notifications_decision, send_notifications_api_errors,
        send_notifications_violations, send_notifications_warnings]
      refine iff_of_false hd ?_
      rintro ⟨ha, hv, hw⟩
      rw [ht, make_decision_api_errors] at ha
      rw [ht, make_decision_warnings] at hw
      rw [ht, make_decision_violations_of_api_nil s5 ha] at hv
      refine hd ?_
      rw [ht]
      exact (make_decision_proceed_iff s5).mpr ⟨ha, hv, hw⟩
    · intro hp
      simp only [generate_summary_node_decision, send_notifications_decision] at hp
      exact absurd hp hd
    · intro _
      simp only [generate_summary_node_provisioning, generate_summary_node_actions,
        send_notifications_provisioning, send_notifications_actions]
      exact ⟨hprov, hact⟩

set_option maxHeartbeats 2000000 in
/-- Witness for C2: the ACME run proceeds, so its provisioning result is
set and exactly one provision action is recorded; the BETA run does not
proceed, so nothing is provisioned or recorded. -/
theorem c2_proceed_provisioning_witness :
    ((run_onboarding mock_provision_account 20738 "ACME-001" "Acme Corporation"
        "demo").provisioning.isSome = true ∧
     ((run_onboarding mock_provision_account 20738 "ACME-001" "Acme Corporation"
        "demo").actions_taken.filter (fun a => a.action_type = "provision")).length = 1) ∧
    ((run_onboarding mock_provision_account 20738 "BETA-002" "Beta Industries"
        "demo").provisioning = none ∧
     (run_onboarding mock_provision_account 20738 "BETA-002" "Beta Industries"
        "demo").actions_taken = []) :=
  ⟨(c2_proceed_provisioning mock_provision_account 20738 "ACME-001" "Acme Corporation"
      "demo").2.1 (by decide),
   (c2_proceed_provisioning mock_provision_account 20738 "BETA-002" "Beta Industries"
      "demo").2.2 (by decide)⟩

/-! ### Claim C4 -/

set_option maxHeartbeats 2000000 in
/-- C4, actual behaviour on the "AUTH-ERROR" scenario: the Salesforce
client swallows the simulated authentication SystemError and returns
`None`, so the agent records a plain "not found" violation and **zero**
Salesforce api errors; the dependent Salesforce fetches (owner user,
opportunity, CRM contract) are skipped, but the CLM and NetSuite fetches
still run and each records its own authentication api error, leaving two
entries (CLM, netsuite) in `api_errors` — not the single mirrored
Salesforce entry the claim describes.  The decision is BLOCK. -/
theorem c4_auth_error_swallowed :
    salesforce_get_account "AUTH-ERROR" = none ∧
    (run_onboarding mock_provision_account 20738 "AUTH-ERROR" "Auth Err Co"
        "demo").api_errors.map (fun e => e.system) = ["CLM", "netsuite"] ∧
    lookupD (run_onboarding mock_provision_account 20738 "AUTH-ERROR" "Auth Err Co"
        "demo").violations "salesforce" = ["Account AUTH-ERROR not found in Salesforce"] ∧
    lookupD (run_onboarding mock_provision_account 20738 "AUTH-ERROR" "Auth Err Co"
        "demo").violations "api_error"
      = ["CLM API Error [UNAUTHORIZED] during get_contract: [UNAUTHORIZED] Invalid or expired API key (HTTP 401)",
         "NETSUITE API Error [INVALID_LOGIN] during get_invoice: [INVALID_LOGIN] Invalid login credentials. Token-based authentication failed. (HTTP 401)"] ∧
    (run_onboarding mock_provision_account 20738 "AUTH-ERROR" "Auth Err Co"
        "demo").user = none ∧
    (run_onboarding mock_provision_account 20738 "AUTH-ERROR" "Auth Err Co"
        "demo").opportunity = none ∧
    (run_onboarding mock_provision_account 20738 "AUTH-ERROR" "Auth Err Co"
        "demo").contract = none ∧
    (run_onboarding mock_provision_account 20738 "AUTH-ERROR" "Auth Err Co"
        "demo").decision = "BLOCK" := by
  decide

/-! ### Claim C7 -/

set_option maxHeartbeats 2000000 in
/-- C7, actual behaviour on the "GAMMA-003" scenario: for any date past
the 2023-12-31 due date the NetSuite transform reports the invoice
OVERDUE with the day difference, and the run records the overdue
escalation warning and the finance notification — but the CLM contract
is in DRAFT, which `check_contract_invariants` records as a violation,
so the decision is BLOCK, not the ESCALATE the claim (and the demo
scenario expectation) describes. -/
theorem c7_gamma_scenario (today : ℤ) (h : 19722 < today) :
    (netsuite_get_invoice "GAMMA-003" today).status = "OVERDUE" ∧
    (netsuite_get_invoice "GAMMA-003" today).days_overdue = some (today - 19722) ∧
    ("Invoice INV-2023-089 is 1016 days overdue ($25,000.00 outstanding) - escalate to Finance"
        ∈ lookupD (run_onboarding mock_provision_account 20738 "GAMMA-003" "Gamma Startup"
            "demo").warnings "invoice" ∧
     lookupD (run_onboarding mock_provision_account 20738 "GAMMA-003" "Gamma Startup"
        "demo").violations "contract"
        = ["Contract is still in DRAFT - not yet sent for signatures"] ∧
     (run_onboarding mock_provision_account 20738 "GAMMA-003" "Gamma Startup"
        "demo").decision = "BLOCK" ∧
     (run_onboarding mock_provision_account 20738 "GAMMA-003" "Gamma Startup"
        "demo").decision ≠ "ESCALATE" ∧
     ({ channel := "slack", recipient := "#finance-alerts",
        message := "Overdue invoice escalation for Gamma Startup" } : NotificationRecord)
        ∈ (run_onboarding mock_provision_account 20738 "GAMMA-003" "Gamma Startup"
            "demo").notifications_sent) := by
  have key : netsuite_get_invoice "GAMMA-003" today =
      { invoice_id := some "INV-2023-089",
        status := match (if today > (19722 : ℤ) then some (today - 19722) else none) with
          | some _ => "OVERDUE" | none => "OPEN",
        days_overdue := some (match (if today > (19722 : ℤ) then some (today - 19722) else none)
          with | some k => k | none => 0),
        total := some 2500000, amount_remaining := some 2500000,
        due_date := some "2023-12-31", customer_email := some "founders@gammastartup.io" } := rfl
  refine ⟨?_, ?_, by decide⟩
  · rw [key, if_pos h]
  · rw [key, if_pos h]

/-- Witness for C7 at the concrete date 2026-10-12 (day number 20738):
the hypothesis that the due date lies in the past is discharged by
computation. -/
theorem c7_gamma_scenario_witness :
    (19722 : ℤ) < 20738 ∧ (netsuite_get_invoice "GAMMA-003" 20738).status = "OVERDUE" :=
  ⟨by decide, (c7_gamma_scenario 20738 (by decide)).1⟩

/-! ### Claim C9 -/

set_option maxHeartbeats 2000000 in
/-- C9: for an opportunity record with a truthy stage, the rule set
records an "invalid stage" violation when the stage is in neither the
WON nor the OPEN set, records a "not won" violation whenever the stage
is not in the WON set (even when it is a valid open stage), and emits no
completeness warnings unless the stage is WON.  On the BETA-002 run
(stage "Negotiation", a valid open stage) the final state carries the
"not won" violation but no "invalid stage" one, the decision is BLOCK
and nothing is provisioned. -/
theorem c9_opportunity_stage_rules (s : AgentState) (o : Opportunity)
    (h : s.opportunity = some o) (ht : truthyStr o.StageName = true) :
    (stageIn o.StageName WON_STAGES = false → stageIn o.StageName OPEN_STAGES = false →
      ("Invalid StageName: " ++ o.StageName.getD "")
        ∈ lookupD (check_opportunity_invariants s).violations "opportunity") ∧
    (stageIn o.StageName WON_STAGES = false →
      ("Opportunity not won (stage: " ++ o.StageName.getD "" ++ ")")
        ∈ lookupD (check_opportunity_invariants s).violations "opportunity") ∧
    (stageIn o.StageName WON_STAGES = false →
      (check_opportunity_invariants s).warnings = s.warnings) ∧
    ("Opportunity not won (stage: Negotiation)"
        ∈ lookupD (run_onboarding mock_provision_account 20738 "BETA-002" "Beta Industries"
            "demo").violations "opportunity" ∧
     "Invalid StageName: Negotiation"
        ∉ lookupD (run_onboarding mock_provision_account 20738 "BETA-002" "Beta Industries"
            "demo").violations "opportunity" ∧
     (run_onboarding mock_provision_account 20738 "BETA-002" "Beta Industries"
        "demo").decision = "BLOCK" ∧
     (run_onboarding mock_provision_account 20738 "BETA-002" "Beta Industries"
        "demo").actions_taken = [] ∧
     (run_onboarding mock_provision_account 20738 "BETA-002" "Beta Industries"
        "demo").provisioning = none) := by
  refine ⟨?_, ?_, ?_, by decide⟩
  · intro hw ho
    simp [check_opportunity_invariants, h, ht, hw, ho, lookupD_dictAppend_self]
  · intro hw
    simp [check_opportunity_invariants, h, ht, hw, lookupD_dictAppend_self]
  · intro hw
    simp [check_opportunity_invariants, h, ht, hw]

/-- Witness for C9: a concrete state holding an opportunity in the open
stage "Negotiation" receives the "not won" violation, and its warnings
are untouched. -/
theorem c9_opportunity_stage_rules_witness :
    "Opportunity not won (stage: Negotiation)"
      ∈ lookupD (check_opportunity_invariants
          { account_id := "B"
            opportunity := some { Id := some "O1", AccountId := some "A1", StageName := some "Negotiation" } }).violations "opportunity" ∧
    (check_opportunity_invariants
          { account_id := "B"
            opportunity := some { Id := some "O1", AccountId := some "A1", StageName := some "Negotiation" } }).warnings = [] := by
  refine ⟨?_, ?_⟩
  · exact ((c9_opportunity_stage_rules
      { account_id := "B"
        opportunity := some { Id := some "O1", AccountId := some "A1", StageName := some "Negotiation" } }
      { Id := some "O1", AccountId := some "A1", StageName := some "Negotiation" }
      rfl (by decide)).2.1 (by decide))
  · exact ((c9_opportunity_stage_rules
      { account_id := "B"
        opportunity := some { Id := some "O1", AccountId := some "A1", StageName := some "Negotiation" } }
      { Id := some "O1", AccountId := some "A1", StageName := some "Negotiation" }
      rfl (by decide)).2.2.1 (by decide))
